import Mathlib

/-!
Shallow embedding of the fancy-nes emulation core (crate `fancy-nes-core`):
the 2C02 PPU (`src/ppu.rs`), the 6502 CPU (`src/cpu.rs`), the CPU memory bus
(`src/cpu/mem.rs`), the NROM mapper (`src/cpu/mapper000.rs`) and the opcode
table (`src/cpu/decode.rs`).

Machine integers are modelled as `Nat` with explicit wrapping (`% 256`,
`% 65536`) exactly where the Rust release profile wraps, and with the bit
operations (`&&&`, `|||`, `^^^`, `<<<`, `>>>`) of the source.  Byte arrays
are total maps `Nat → Nat` holding byte values; a Rust in-place store
becomes a pointwise functional update.  Rust code that can fail — `panic!`
/ `unreachable!` / `unwrap` on a detached PPU, and `Result::Err` — is
modelled in `Option`.  `cfg(debug_assertions)` code (the `cycle` counter
bump) is excluded, matching a release build.
-/

namespace FancyNes

/-- Wrap to an unsigned 8-bit value (Rust `u8` wrapping semantics). -/
def u8 (n : Nat) : Nat := n % 256

/-- Wrap to an unsigned 16-bit value (Rust `u16` wrapping semantics). -/
def u16 (n : Nat) : Nat := n % 65536

/-- Wrapping 16-bit subtraction `a - b` (Rust `u16` release semantics). -/
def w16sub (a b : Nat) : Nat := (a + 65536 - b % 65536) % 65536

/-- Pointwise update of a byte-map at one index (a Rust `arr[i] = v` store). -/
def upd (f : Nat → Nat) (i v : Nat) : Nat → Nat := fun j => if j = i then v else f j

/-- Nametable mirroring hardwired by the cartridge (`Mirroring` in `lib.rs`). -/
inductive Mirroring where
  | Horizontal
  | Vertical
  | FourScreen
deriving DecidableEq

/-- PPU state: `NESPpu` in `src/ppu.rs` fused with the PPU-side NROM mapper
state (`PPUMapper000`: its `chr_rom` vector and `mirroring`).  The scalar
fields are bytes or 16-bit words held as `Nat`. -/
structure Ppu where
  palette : Nat → Nat
  vram : Nat → Nat
  poam : Nat → Nat
  soam : Nat → Nat
  write_toggle : Bool
  scanline : Nat
  vram_v : Nat
  vram_t : Nat
  vram_x : Nat
  ppu_ctrl : Nat
  ppu_mask : Nat
  ppu_status : Nat
  oam_address : Nat
  oam_data : Nat
  tick : Nat
  bg_pattern_shift_reg_hi : Nat
  bg_pattern_shift_reg_lo : Nat
  bg_pattern_next_hi : Nat
  bg_pattern_next_lo : Nat
  bg_attribute_shift_reg_hi : Nat
  bg_attribute_shift_reg_lo : Nat
  bg_attribute_next_hi : Nat
  bg_attribute_next_lo : Nat
  bg_next_tile : Nat
  bg_next_attr : Nat
  data_bus_next : Nat
  poam_data : Nat
  poam_sprite_index : Nat
  poam_sprite_byte_index : Nat
  soam_next_open_slot : Nat
  sprite_evaluation_substage : Nat
  sprite_evaluation_write_rest : Bool
  sprite_render_oam_y_coord : Nat
  sprite_render_oam_tile_number : Nat
  sprite_render_oam_attribute : Nat
  sprite_render_oam_x_coord : Nat
  sprite_pattern_shift_reg_hi : Nat → Nat
  sprite_pattern_shift_reg_lo : Nat → Nat
  sprite_attribute_latch : Nat → Nat
  sprite_x_position_counter : Nat → Nat
  frame : Nat → Nat
  frame_ready : Bool
  chr_rom : Nat → Nat
  mirroring : Mirroring

/-- Initial PPU state, `NESPpu::new` (every array zeroed, `scanline = 261`,
`poam_data = 0xFF`, `sprite_evaluation_substage = 1`). -/
def ppuNew (m : Mirroring) : Ppu where
  palette := fun _ => 0
  vram := fun _ => 0
  poam := fun _ => 0
  soam := fun _ => 0
  write_toggle := false
  scanline := 261
  vram_v := 0
  vram_t := 0
  vram_x := 0
  ppu_ctrl := 0
  ppu_mask := 0
  ppu_status := 0
  oam_address := 0
  oam_data := 0
  tick := 0
  bg_pattern_shift_reg_hi := 0
  bg_pattern_shift_reg_lo := 0
  bg_pattern_next_hi := 0
  bg_pattern_next_lo := 0
  bg_attribute_shift_reg_hi := 0
  bg_attribute_shift_reg_lo := 0
  bg_attribute_next_hi := 0
  bg_attribute_next_lo := 0
  bg_next_tile := 0
  bg_next_attr := 0
  data_bus_next := 0
  poam_data := 0xFF
  poam_sprite_index := 0
  poam_sprite_byte_index := 0
  soam_next_open_slot := 0
  sprite_evaluation_substage := 1
  sprite_evaluation_write_rest := false
  sprite_render_oam_y_coord := 0
  sprite_render_oam_tile_number := 0
  sprite_render_oam_attribute := 0
  sprite_render_oam_x_coord := 0
  sprite_pattern_shift_reg_hi := fun _ => 0
  sprite_pattern_shift_reg_lo := fun _ => 8
  sprite_attribute_latch := fun _ => 0
  sprite_x_position_counter := fun _ => 0
  frame := fun _ => 0
  frame_ready := false
  chr_rom := fun _ => 0
  mirroring := m

/-- PPU-side mapper read, `impl Mapper<u16,u16> for PPUMapper000::read`.
Returns the tagged word: a CHR byte below `$2000`, or `0x1000 |`
nametable-index after applying the hardwired mirroring.  The
`FourScreen` arm and addresses above `$3EFF` are `unreachable!` in the
source; they are given the junk value 0 here (no caller reaches them). -/
def ppuMapperRead (p : Ppu) (addr : Nat) : Nat :=
  if addr ≤ 0x1FFF then p.chr_rom addr
  else if addr ≤ 0x2FFF then
    match p.mirroring with
    | .Horizontal =>
        let a := addr &&& 0xFBFF
        let a := if a &&& 0x800 > 0 then a - 0x400 else a
        0x1000 ||| (a - 0x2000)
    | .Vertical => 0x1000 ||| ((addr &&& 0xF7FF) - 0x2000)
    | .FourScreen => 0
  else if addr ≤ 0x3EFF then 0
  else 0

/-- PPU-side mapper write, `PPUMapper000::write`: stores into CHR below
`$2000` (returning word 0) or returns the mirrored nametable index.
The `Err` arm above `$3EFF` is unreachable from `NESPpu::write`. -/
def ppuMapperWrite (p : Ppu) (addr data : Nat) : Ppu × Nat :=
  if addr ≤ 0x1FFF then ({p with chr_rom := upd p.chr_rom addr data}, 0)
  else if addr ≤ 0x2FFF then
    match p.mirroring with
    | .Horizontal =>
        let a := addr &&& 0xFBFF
        let a := if a &&& 0x800 > 0 then a - 0x400 else a
        (p, 0x1000 ||| (a - 0x2000))
    | .Vertical => (p, 0x1000 ||| ((addr &&& 0xF7FF) - 0x2000))
    | .FourScreen => (p, 0)
  else if addr ≤ 0x3EFF then (p, 0)
  else (p, 0)

/-- PPU address-space read, `NESPpu::read`: mapper word below `$3F00`
(redirected into internal VRAM when tagged), palette RAM with the
`$3F10/$3F14/$3F18/$3F1C → -$10` read aliasing and the greyscale mask
above.  Addresses above `$3FFF` are `unreachable!` in the source. -/
def ppuRead (p : Ppu) (addr : Nat) : Nat :=
  if addr ≤ 0x3EFF then
    let word := ppuMapperRead p addr
    if word &&& 0x1000 > 0 then p.vram (word &&& 0x0FFF)
    else word &&& 0xFF
  else if addr ≤ 0x3FFF then
    let a := if addr = 0x3F10 ∨ addr = 0x3F14 ∨ addr = 0x3F18 ∨ addr = 0x3F1C
             then addr - 0x10 else addr
    p.palette (a &&& 0x1F) &&& (if p.ppu_mask &&& 0x01 ≠ 0 then 0x30 else 0x3F)
  else 0

/-- PPU address-space write, `NESPpu::write`: mapper write below `$3F00`
(landing in VRAM when the returned word is tagged), otherwise a direct
palette store at `addr & 0x1F` — with no write-side aliasing. -/
def ppuWrite (p : Ppu) (addr data : Nat) : Ppu :=
  if addr ≤ 0x3EFF then
    let pw := ppuMapperWrite p addr data
    if pw.2 &&& 0x1000 > 0 then {pw.1 with vram := upd pw.1.vram (pw.2 &&& 0x0FFF) data}
    else pw.1
  else if addr ≤ 0x3FFF then {p with palette := upd p.palette (addr &&& 0x1F) data}
  else p

/-- Tile and attribute fetch addresses for a VRAM address,
`NESPpu::tile_attr_from_vram_addr`. -/
def tile_attr_from_vram_addr (addr : Nat) : Nat × Nat :=
  (0x2000 ||| (addr &&& 0x0FFF),
   0x23C0 ||| (addr &&& 0x0C00) ||| ((addr >>> 4) &&& 0x38) ||| ((addr >>> 2) &&& 0x07))

/-- CPU-visible PPU register write, `NESPpu::ppu_register_write`.  `addr` is
the CPU address already folded to `$2000-$2007`.  The `_` arm of the source
is a `panic!` (this includes `$2002`), modelled as `none`. -/
def ppu_register_write (p : Ppu) (addr data : Nat) : Option Ppu :=
  if addr = 0x2000 then
    some {p with vram_t := (p.vram_t &&& 0xF3FF) ||| ((data &&& 0x3) <<< 10),
                 ppu_ctrl := data}
  else if addr = 0x2001 then
    some {p with ppu_mask := data}
  else if addr = 0x2005 then
    if !p.write_toggle then
      some {p with vram_x := data &&& 0x7,
                   vram_t := (p.vram_t &&& 0xFFE0) ||| ((data >>> 0x3) &&& 0x1F),
                   write_toggle := true}
    else
      some {p with vram_t := (p.vram_t &&& 0x8C1F) ||| ((data &&& 0x3) <<< 12)
                              ||| ((data &&& 0x38) <<< 2) ||| ((data &&& 0xC0) <<< 2),
                   write_toggle := false}
  else if addr = 0x2006 then
    if !p.write_toggle then
      some {p with vram_t := (p.vram_t &&& 0xFF) ||| ((data &&& 0x3F) <<< 8),
                   write_toggle := true}
    else
      let t := (p.vram_t &&& 0xFF00) ||| data
      some {p with vram_t := t, vram_v := t, write_toggle := false}
  else if addr = 0x2007 then
    let p := ppuWrite p (p.vram_v &&& 0x3FFF) data
    let increment := if p.ppu_ctrl &&& 0x04 ≠ 0 then 32 else 1
    some {p with vram_v := u16 (p.vram_v + increment)}
  else if addr = 0x2003 then
    some {p with oam_address := data}
  else if addr = 0x2004 then
    some {p with poam := upd p.poam p.oam_address data,
                 oam_address := u8 (p.oam_address + 1)}
  else none

/-- CPU-visible PPU register read (with side effects),
`NESPpu::ppu_register_read`: only `$2002` (PPUSTATUS, clearing VBLANK and
the write toggle) and `$2007` (PPUDATA).  In the PPUDATA palette-range arm
the source reads `self.read(addr & 0x3FFF)` — `addr` being the register
address `$2007`, not `vram_v` — and leaves the read buffer untouched.
Every other register is a `panic!`, modelled as `none`. -/
def ppu_register_read (p : Ppu) (addr : Nat) : Option (Nat × Ppu) :=
  if addr = 0x2002 then
    some (p.ppu_status, {p with ppu_status := p.ppu_status &&& 0x7F, write_toggle := false})
  else if addr = 0x2007 then
    let dp : Nat × Ppu :=
      if p.vram_v < 0x3F00 then
        (p.data_bus_next, {p with data_bus_next := ppuRead p (p.vram_v &&& 0x3FFF)})
      else
        (ppuRead p (addr &&& 0x3FFF), p)
    let increment := if dp.2.ppu_ctrl &&& 0x04 ≠ 0 then 32 else 1
    some (dp.1, {dp.2 with vram_v := u16 (dp.2.vram_v + increment)})
  else none

/-- Reverse the bit order of a byte, the in-place swap network used by the
sprite horizontal-flip paths of `NESPpu::ppu_tick`. -/
def bitrev8 (x : Nat) : Nat :=
  let t := ((x &&& 0xF0) >>> 4) ||| ((x &&& 0x0F) <<< 4)
  let t := ((t &&& 0xCC) >>> 2) ||| ((t &&& 0x33) <<< 2)
  ((t &&& 0xAA) >>> 1) ||| ((t &&& 0x55) <<< 1)

/-- Rust `u8` range membership `(lo..lo+8).contains(x)` with wrapping `lo+8`
(release profile), as used by the sprite-evaluation in-range checks. -/
def inRange8 (lo x : Nat) : Bool := decide (lo ≤ x ∧ x < u8 (lo + 8))

/-- Background shifter advance of `ppu_tick` (dots `2..=258 | 321..=336`),
gated on the PPUMASK BACKGROUND bit: all four 16-bit shifters move left. -/
def bgShiftRegs (p : Ppu) : Ppu :=
  if p.ppu_mask &&& 0x08 ≠ 0 then
    {p with bg_attribute_shift_reg_hi := u16 (p.bg_attribute_shift_reg_hi <<< 1),
            bg_attribute_shift_reg_lo := u16 (p.bg_attribute_shift_reg_lo <<< 1),
            bg_pattern_shift_reg_hi := u16 (p.bg_pattern_shift_reg_hi <<< 1),
            bg_pattern_shift_reg_lo := u16 (p.bg_pattern_shift_reg_lo <<< 1)}
  else p

/-- Sprite shifter advance of `ppu_tick` (same dots, while `tick < 258`),
gated on the PPUMASK SPRITES bit: decrement positive X counters, shift the
sprite pattern shifters. -/
def spriteShiftRegs (p : Ppu) : Ppu :=
  if p.ppu_mask &&& 0x10 ≠ 0 ∧ p.tick < 258 then
    {p with sprite_x_position_counter := fun i =>
              if p.sprite_x_position_counter i > 0
              then p.sprite_x_position_counter i - 1
              else p.sprite_x_position_counter i,
            sprite_pattern_shift_reg_hi := fun i => u8 (p.sprite_pattern_shift_reg_hi i <<< 1),
            sprite_pattern_shift_reg_lo := fun i => u8 (p.sprite_pattern_shift_reg_lo i <<< 1)}
  else p

/-- Fetch schedule `(tick - 1) % 8` of the background pipeline in
`ppu_tick`: shifter reload and nametable fetch on 0, attribute fetch on 2,
pattern planes on 4 and 6, coarse-X scroll on 7. -/
def bgFetchPhase (p : Ppu) : Ppu :=
  match (p.tick - 1) % 8 with
  | 0 =>
      {p with bg_pattern_shift_reg_hi := (p.bg_pattern_shift_reg_hi &&& 0xFF00) ||| p.bg_pattern_next_hi,
              bg_pattern_shift_reg_lo := (p.bg_pattern_shift_reg_lo &&& 0xFF00) ||| p.bg_pattern_next_lo,
              bg_attribute_shift_reg_hi := (p.bg_attribute_shift_reg_hi &&& 0xFF00) |||
                (if p.bg_attribute_next_hi &&& 1 = 1 then 0xFF else 0x00),
              bg_attribute_shift_reg_lo := (p.bg_attribute_shift_reg_lo &&& 0xFF00) |||
                (if p.bg_attribute_next_lo &&& 1 = 1 then 0xFF else 0x00),
              bg_next_tile := ppuRead p (tile_attr_from_vram_addr p.vram_v).1}
  | 2 => {p with bg_next_attr := ppuRead p (tile_attr_from_vram_addr p.vram_v).2}
  | 4 =>
      {p with bg_pattern_next_lo :=
        (ppuRead p (((if p.ppu_ctrl &&& 0x10 ≠ 0 then 1 else 0) <<< 12)
          ||| (p.bg_next_tile <<< 4) ||| ((p.vram_v &&& 0x7000) >>> 12)))}
  | 6 =>
      {p with bg_pattern_next_hi :=
        (ppuRead p (((if p.ppu_ctrl &&& 0x10 ≠ 0 then 1 else 0) <<< 12)
          ||| (p.bg_next_tile <<< 4) ||| (((p.vram_v &&& 0x7000) >>> 12) + 8)))}
  | 7 =>
      if p.ppu_mask &&& 0x18 = 0x18 then
        if p.vram_v &&& 0x001F = 31 then
          {p with vram_v := (p.vram_v &&& 0xFFE0) ^^^ 0x0400}
        else
          {p with vram_v := u16 (p.vram_v + 1)}
      else p
  | _ => p

/-- Background shifter / fetch block of `NESPpu::ppu_tick`, run on dots
`2..=258 | 321..=336` of a rendering scanline: the shifter advances
followed by the fetch schedule, in source order. -/
def bgShiftAndFetch (p : Ppu) : Ppu :=
  bgFetchPhase (spriteShiftRegs (bgShiftRegs p))

/-- Fine-Y / coarse-Y scroll increment of `v` on dot 256 (`ppu_tick`),
gated on both PPUMASK rendering bits. -/
def fineYScroll (p : Ppu) : Ppu :=
  if p.ppu_mask &&& 0x18 = 0x18 then
    if p.vram_v &&& 0x7000 ≠ 0x7000 then
      {p with vram_v := u16 (p.vram_v + 0x1000)}
    else
      let v := p.vram_v &&& 0x8FFF
      let y := (v &&& 0x03E0) >>> 5
      if y = 29 then
        {p with vram_v := (v ^^^ 0x0800) &&& 0xFC1F}
      else if y = 31 then
        {p with vram_v := v &&& 0xFC1F}
      else
        {p with vram_v := (v &&& 0xFC1F) ||| ((y + 1) <<< 5)}
  else p

/-- Copy the horizontal bits of `t` into `v` on dot 257 (`ppu_tick`). -/
def copyHorizontalBits (p : Ppu) : Ppu :=
  if p.ppu_mask &&& 0x18 = 0x18 then
    {p with vram_v := (p.vram_v &&& 0xFBE0) ||| (p.vram_t &&& 0x41F)}
  else p

/-- Copy the vertical bits of `t` into `v` on dots 280-304 of scanline 261
(`ppu_tick`). -/
def copyVerticalBits (p : Ppu) : Ppu :=
  if p.ppu_mask &&& 0x18 = 0x18 then
    {p with vram_v := (p.vram_v &&& 0x841F) ||| (p.vram_t &&& 0x7BE0)}
  else p

/-- Sprite-evaluation state machine of `ppu_tick`, dots 65-256 of a
rendering scanline: pOAM reads on odd dots, sOAM writes on even dots. -/
def spriteEvaluationDot (p : Ppu) : Ppu :=
  if p.tick % 2 = 1 then
    if p.sprite_evaluation_substage = 1 then
      {p with poam_data := p.poam (4 * p.poam_sprite_index + p.poam_sprite_byte_index)}
    else if p.sprite_evaluation_substage = 3 then
      let d := p.poam (4 * p.poam_sprite_index + p.poam_sprite_byte_index)
      let p := {p with poam_data := d}
      if inRange8 d (u8 p.scanline) then
        let p := {p with ppu_status := p.ppu_status ||| 0x20,
                         poam_sprite_byte_index := p.poam_sprite_byte_index + 1}
        if p.poam_sprite_byte_index ≥ 4 then
          {p with poam_sprite_index := p.poam_sprite_index + 1, poam_sprite_byte_index := 0}
        else p
      else
        let b := p.poam_sprite_byte_index + 1
        let b := if b ≥ 4 then 0 else b
        let p := {p with poam_sprite_byte_index := b,
                         poam_sprite_index := p.poam_sprite_index + 1}
        if p.poam_sprite_index ≥ 64 then
          {p with sprite_evaluation_substage := 4}
        else
          {p with poam_sprite_byte_index := 0}
    else p
  else
    if p.sprite_evaluation_substage = 1 then
      if p.sprite_evaluation_write_rest then
        let p := {p with soam := upd p.soam (4 * p.soam_next_open_slot + p.poam_sprite_byte_index) p.poam_data,
                         poam_sprite_byte_index := p.poam_sprite_byte_index + 1}
        if p.poam_sprite_byte_index ≥ 4 then
          {p with sprite_evaluation_write_rest := false,
                  poam_sprite_byte_index := 0,
                  soam_next_open_slot := p.soam_next_open_slot + 1,
                  sprite_evaluation_substage := 2}
        else p
      else
        let p := if p.soam_next_open_slot ≤ 7 then
            {p with soam := upd p.soam (4 * p.soam_next_open_slot + p.poam_sprite_byte_index) p.poam_data}
          else p
        if inRange8 p.poam_data (u8 p.scanline) then
          {p with poam_sprite_byte_index := p.poam_sprite_byte_index + 1,
                  sprite_evaluation_write_rest := true}
        else
          {p with poam_sprite_byte_index := 0,
                  soam_next_open_slot := p.soam_next_open_slot + 1,
                  sprite_evaluation_substage := 2}
    else if p.sprite_evaluation_substage = 2 then
      let p := {p with poam_sprite_index := p.poam_sprite_index + 1}
      if p.poam_sprite_index ≥ 64 then
        {p with poam_sprite_index := 0, sprite_evaluation_substage := 4}
      else if p.soam_next_open_slot ≤ 7 then
        {p with sprite_evaluation_substage := 1}
      else if p.soam_next_open_slot = 8 then
        {p with sprite_evaluation_substage := 3}
      else p
    else p

/-- Sprite-fetch block of `ppu_tick`, dots 257-320 of a rendering scanline:
reset of the evaluation state at dot 257, then the per-sprite 8-dot latch
and pattern-fetch schedule with vertical- and horizontal-flip handling. -/
def spriteFetchDot (p : Ppu) : Ppu :=
  let p := if p.tick = 257 then
      {p with sprite_evaluation_substage := 1, soam_next_open_slot := 0,
              poam_sprite_index := 0, poam_sprite_byte_index := 0}
    else p
  let idx := ((p.tick - 1) &&& 0x38) >>> 3
  match (p.tick - 1) % 8 with
  | 0 =>
      {p with sprite_render_oam_y_coord := p.soam (idx * 4 + 0),
              sprite_render_oam_tile_number := p.soam (idx * 4 + 1),
              sprite_render_oam_attribute := p.soam (idx * 4 + 2),
              sprite_render_oam_x_coord := p.soam (idx * 4 + 3)}
  | 2 => {p with sprite_attribute_latch := upd p.sprite_attribute_latch idx p.sprite_render_oam_attribute}
  | 3 => {p with sprite_x_position_counter := upd p.sprite_x_position_counter idx p.sprite_render_oam_x_coord}
  | 4 =>
      let fy := if p.sprite_render_oam_attribute &&& 0x80 > 0
                then w16sub p.scanline p.sprite_render_oam_y_coord &&& 0x7
                else w16sub 7 (w16sub p.scanline p.sprite_render_oam_y_coord) &&& 0x7
      let v := ppuRead p (((if p.ppu_ctrl &&& 0x08 ≠ 0 then 1 else 0) <<< 12)
                 ||| (p.sprite_render_oam_tile_number <<< 4) ||| fy)
      let v := if p.sprite_render_oam_attribute &&& 0x40 > 0 then bitrev8 v else v
      {p with sprite_pattern_shift_reg_hi := upd p.sprite_pattern_shift_reg_hi idx v}
  | 6 =>
      let fy := if p.sprite_render_oam_attribute &&& 0x80 > 0
                then w16sub p.scanline p.sprite_render_oam_y_coord &&& 0x7
                else w16sub 7 (w16sub p.scanline p.sprite_render_oam_y_coord) &&& 0x7
      let v := ppuRead p (((if p.ppu_ctrl &&& 0x08 ≠ 0 then 1 else 0) <<< 12)
                 ||| (p.sprite_render_oam_tile_number <<< 4) ||| (fy + 8))
      let v := if p.sprite_render_oam_attribute &&& 0x40 > 0 then bitrev8 v else v
      {p with sprite_pattern_shift_reg_lo := upd p.sprite_pattern_shift_reg_lo idx v}
  | _ => p

/-- Sprite evaluation and fetching of `ppu_tick`, gated on
`ppu_mask.contains(RENDERING)` (both PPUMASK rendering bits). -/
def spriteEvalAndFetch (p : Ppu) : Ppu :=
  if 1 ≤ p.tick ∧ p.tick ≤ 32 then
    {p with soam := upd p.soam (p.tick - 1) 0xFF}
  else if 65 ≤ p.tick ∧ p.tick ≤ 256 then
    spriteEvaluationDot p
  else if 257 ≤ p.tick ∧ p.tick ≤ 320 then
    spriteFetchDot p
  else p

/-- Unconditional idle skip of `ppu_tick` on scanline 0 dot 0 (the source
applies it on every frame, not only odd ones). -/
def idleSkipStep (p : Ppu) : Ppu :=
  if p.scanline = 0 ∧ p.tick = 0 then {p with tick := 1} else p

/-- PPUSTATUS clear on dot 1 of the pre-render scanline 261 (`ppu_tick`). -/
def statusClearStep (p : Ppu) : Ppu :=
  if p.scanline = 261 ∧ p.tick = 1 then {p with ppu_status := 0} else p

/-- Dot gate `matches!(tick, 2..=258 | 321..=336)` around the background
shifter / fetch block of `ppu_tick`. -/
def bgPipelineStep (p : Ppu) : Ppu :=
  if (2 ≤ p.tick ∧ p.tick ≤ 258) ∨ (321 ≤ p.tick ∧ p.tick ≤ 336)
  then bgShiftAndFetch p else p

/-- Dot-256 gate around the fine-Y scroll (`ppu_tick`). -/
def fineYStep (p : Ppu) : Ppu :=
  if p.tick = 256 then fineYScroll p else p

/-- Dot-257 gate around the horizontal `t → v` copy (`ppu_tick`). -/
def copyHStep (p : Ppu) : Ppu :=
  if p.tick = 257 then copyHorizontalBits p else p

/-- Scanline-261 dots 280-304 gate around the vertical `t → v` copy. -/
def copyVStep (p : Ppu) : Ppu :=
  if p.scanline = 261 ∧ 280 ≤ p.tick ∧ p.tick ≤ 304 then copyVerticalBits p else p

/-- Superfluous nametable reads at dots 338 and 340 (`ppu_tick`). -/
def superfluousStep (p : Ppu) : Ppu :=
  if p.tick = 338 ∨ p.tick = 340
  then {p with bg_next_tile := ppuRead p (0x2000 ||| (p.vram_v &&& 0x0FFF))} else p

/-- Rendering gate around sprite evaluation and fetching (`ppu_tick`). -/
def spritePipelineStep (p : Ppu) : Ppu :=
  if p.ppu_mask &&& 0x18 = 0x18 then spriteEvalAndFetch p else p

/-- Rendering-scanline arm of `ppu_tick` (scanlines `0..=239 | 261`):
unconditional idle skip on scanline 0 dot 0, pre-render status clear,
background pipeline, scroll copies, superfluous nametable fetches and
the sprite pipeline, in source order. -/
def ppuDotRender (p : Ppu) : Ppu :=
  spritePipelineStep (superfluousStep (copyVStep (copyHStep
    (fineYStep (bgPipelineStep (statusClearStep (idleSkipStep p)))))))

/-- VBLANK arm of `ppu_tick` (scanlines 241-260): at scanline 241 dot 1 set
the VBLANK status bit and, when PPUCTRL has NMI enabled, raise the CPU's
`do_nmi` line (the Bool threaded alongside the PPU state). -/
def ppuDotVblank (p : Ppu) (nmi : Bool) : Ppu × Bool :=
  if p.scanline = 241 ∧ p.tick = 1 then
    ({p with ppu_status := p.ppu_status ||| 0x80},
     if p.ppu_ctrl &&& 0x80 ≠ 0 then true else nmi)
  else (p, nmi)

/-- Pixel generation and output of `ppu_tick` (runs on every dot): sprite
pixel scan in OAM order with early exit, background pixel from the shifters
at fine X, priority mux, palette lookup, and the framebuffer store in the
visible region. -/
def ppuDotMux (p : Ppu) : Ppu :=
  let sp : Nat × Nat × Nat × Bool :=
    if p.ppu_mask &&& 0x10 ≠ 0 then
      let step := fun (acc : Nat × Nat × Nat × Bool × Bool) (i : Nat) =>
        if acc.2.2.2.2 then acc
        else if p.sprite_x_position_counter i = 0 then
          let pal := (p.sprite_attribute_latch i &&& 0x3) + 4
          let latch := p.sprite_attribute_latch i
          let lbp := if p.sprite_pattern_shift_reg_lo i &&& 0x80 > 0 then 1 else 0
          let hbp := if p.sprite_pattern_shift_reg_hi i &&& 0x80 > 0 then 1 else 0
          let px := (hbp <<< 1) ||| lbp
          if px > 0 then (px, pal, latch, (if i = 0 then true else acc.2.2.2.1), true)
          else (px, pal, latch, acc.2.2.2.1, false)
        else acc
      let r := (List.range 8).foldl step (0, 0, 0, false, false)
      (r.1, r.2.1, r.2.2.1, r.2.2.2.1)
    else (0, 0, 0, false)
  let bg : Nat × Nat :=
    if p.ppu_mask &&& 0x08 ≠ 0 then
      let lbp := if p.bg_pattern_shift_reg_lo &&& (0x8000 >>> p.vram_x) > 0 then 1 else 0
      let hbp := if p.bg_pattern_shift_reg_hi &&& (0x8000 >>> p.vram_x) > 0 then 1 else 0
      let lba := if p.bg_attribute_shift_reg_lo &&& (0x8000 >>> p.vram_x) > 0 then 1 else 0
      let hba := if p.bg_attribute_shift_reg_hi &&& (0x8000 >>> p.vram_x) > 0 then 1 else 0
      ((hbp <<< 1) ||| lbp, (hba <<< 1) ||| lba)
    else (0, 0)
  let out : Nat × Nat :=
    if sp.1 ≠ 0 ∧ (sp.2.2.1 &&& 0x20 = 0 ∨ bg.1 = 0) then (sp.1, sp.2.1) else bg
  let colour := ppuRead p (0x3F00 ||| (out.2 <<< 2) ||| out.1)
  if p.scanline ≤ 239 ∧ 1 ≤ p.tick ∧ p.tick ≤ 256 then
    {p with frame := upd p.frame (p.scanline * 256 + (p.tick - 1)) colour}
  else p

/-- Dot/scanline bookkeeping at the end of each `ppu_tick` iteration: wrap
the dot at 341, the scanline at 262, raising `frame_ready` on frame wrap. -/
def ppuDotBookkeeping (p : Ppu) : Ppu :=
  let t := p.tick + 1
  if t ≥ 341 then
    let s := p.scanline + 1
    if s ≥ 262 then {p with tick := 0, scanline := 0, frame_ready := true}
    else {p with tick := 0, scanline := s}
  else {p with tick := t}

/-- One iteration of the `for` loop in `NESPpu::ppu_tick` (one PPU dot).
The Bool is the CPU's `do_nmi` latch, which the PPU can only raise. -/
def ppuTickOne (p : Ppu) (nmi : Bool) : Ppu × Bool :=
  let pn :=
    if p.scanline ≤ 239 ∨ p.scanline = 261 then (ppuDotRender p, nmi)
    else if 241 ≤ p.scanline ∧ p.scanline ≤ 260 then ppuDotVblank p nmi
    else (p, nmi)
  (ppuDotBookkeeping (ppuDotMux pn.1), pn.2)

/-- `NESPpu::ppu_tick(count)`: `count` iterations of the dot loop. -/
def ppu_tick (p : Ppu) (nmi : Bool) : Nat → Ppu × Bool
  | 0 => (p, nmi)
  | n + 1 =>
      let pn := ppuTickOne p nmi
      ppu_tick pn.1 pn.2 n

/-- Addressing modes of the 6502 core (`AddressingMode` in `src/cpu.rs`). -/
inductive Mode where
  | Implied
  | Accumulator
  | Immediate
  | ZeroPage
  | ZeroPageX
  | ZeroPageY
  | Relative
  | Absolute
  | AbsoluteX
  | AbsoluteY
  | Indirect
  | IndexedIndirect
  | IndirectIndexed
deriving DecidableEq

/-- Instruction mnemonics (the string tags of `LUT_6502` in `decode.rs`). -/
inductive Mnem where
  | ADC | AND | ASL | BCC | BCS | BEQ | BIT | BMI | BNE | BPL | BRK | BVC | BVS
  | CLC | CLD | CLI | CLV | CMP | CPX | CPY | DEC | DEX | DEY | EOR | INC | INX
  | INY | JMP | JSR | LDA | LDX | LDY | LSR | NOP | ORA | PHA | PHP | PLA | PLP
  | ROL | ROR | RTI | RTS | SBC | SEC | SED | SEI | STA | STX | STY | TAX | TAY
  | TSX | TXA | TXS | TYA
deriving DecidableEq

/-- Interrupt classes of the CPU core (`InterruptType` in `src/cpu.rs`). -/
inductive IntType where
  | SUBROUTINE
  | BRK
  | IRQ
  | NMI
deriving DecidableEq

/-- One entry of the opcode lookup table (`Instruction` in `decode.rs`). -/
structure Instruction where
  mnemonic : Mnem
  mode : Mode
  cycles : Nat

/-- The opcode lookup table `LUT_6502` of `decode.rs`, with every official
opcode and its `(mnemonic, mode, base cycles)` entry exactly as listed
(including the `EOR $59` entry carrying 3 cycles). -/
def LUT_6502 (op : Nat) : Option Instruction :=
  match op with
  | 0x69 => some ⟨.ADC, .Immediate, 2⟩
  | 0x65 => some ⟨.ADC, .ZeroPage, 3⟩
  | 0x75 => some ⟨.ADC, .ZeroPageX, 4⟩
  | 0x6D => some ⟨.ADC, .Absolute, 4⟩
  | 0x7D => some ⟨.ADC, .AbsoluteX, 4⟩
  | 0x79 => some ⟨.ADC, .AbsoluteY, 4⟩
  | 0x61 => some ⟨.ADC, .IndexedIndirect, 6⟩
  | 0x71 => some ⟨.ADC, .IndirectIndexed, 5⟩
  | 0x29 => some ⟨.AND, .Immediate, 2⟩
  | 0x25 => some ⟨.AND, .ZeroPage, 3⟩
  | 0x35 => some ⟨.AND, .ZeroPageX, 4⟩
  | 0x2D => some ⟨.AND, .Absolute, 4⟩
  | 0x3D => some ⟨.AND, .AbsoluteX, 4⟩
  | 0x39 => some ⟨.AND, .AbsoluteY, 4⟩
  | 0x21 => some ⟨.AND, .IndexedIndirect, 6⟩
  | 0x31 => some ⟨.AND, .IndirectIndexed, 5⟩
  | 0x0A => some ⟨.ASL, .Accumulator, 2⟩
  | 0x06 => some ⟨.ASL, .ZeroPage, 5⟩
  | 0x16 => some ⟨.ASL, .ZeroPageX, 6⟩
  | 0x0E => some ⟨.ASL, .Absolute, 6⟩
  | 0x1E => some ⟨.ASL, .AbsoluteX, 7⟩
  | 0x90 => some ⟨.BCC, .Relative, 2⟩
  | 0xB0 => some ⟨.BCS, .Relative, 2⟩
  | 0xF0 => some ⟨.BEQ, .Relative, 2⟩
  | 0x24 => some ⟨.BIT, .ZeroPage, 3⟩
  | 0x2C => some ⟨.BIT, .Absolute, 4⟩
  | 0x30 => some ⟨.BMI, .Relative, 2⟩
  | 0xD0 => some ⟨.BNE, .Relative, 2⟩
  | 0x10 => some ⟨.BPL, .Relative, 2⟩
  | 0x00 => some ⟨.BRK, .Implied, 7⟩
  | 0x50 => some ⟨.BVC, .Relative, 2⟩
  | 0x70 => some ⟨.BVS, .Relative, 2⟩
  | 0x18 => some ⟨.CLC, .Implied, 2⟩
  | 0xD8 => some ⟨.CLD, .Implied, 2⟩
  | 0x58 => some ⟨.CLI, .Implied, 2⟩
  | 0xB8 => some ⟨.CLV, .Implied, 2⟩
  | 0xC9 => some ⟨.CMP, .Immediate, 2⟩
  | 0xC5 => some ⟨.CMP, .ZeroPage, 3⟩
  | 0xD5 => some ⟨.CMP, .ZeroPageX, 4⟩
  | 0xCD => some ⟨.CMP, .Absolute, 4⟩
  | 0xDD => some ⟨.CMP, .AbsoluteX, 4⟩
  | 0xD9 => some ⟨.CMP, .AbsoluteY, 4⟩
  | 0xC1 => some ⟨.CMP, .IndexedIndirect, 6⟩
  | 0xD1 => some ⟨.CMP, .IndirectIndexed, 5⟩
  | 0xE0 => some ⟨.CPX, .Immediate, 2⟩
  | 0xE4 => some ⟨.CPX, .ZeroPage, 3⟩
  | 0xEC => some ⟨.CPX, .Absolute, 4⟩
  | 0xC0 => some ⟨.CPY, .Immediate, 2⟩
  | 0xC4 => some ⟨.CPY, .ZeroPage, 3⟩
  | 0xCC => some ⟨.CPY, .Absolute, 4⟩
  | 0xC6 => some ⟨.DEC, .ZeroPage, 5⟩
  | 0xD6 => some ⟨.DEC, .ZeroPageX, 6⟩
  | 0xCE => some ⟨.DEC, .Absolute, 6⟩
  | 0xDE => some ⟨.DEC, .AbsoluteX, 7⟩
  | 0xCA => some ⟨.DEX, .Implied, 2⟩
  | 0x88 => some ⟨.DEY, .Implied, 2⟩
  | 0x49 => some ⟨.EOR, .Immediate, 2⟩
  | 0x45 => some ⟨.EOR, .ZeroPage, 3⟩
  | 0x55 => some ⟨.EOR, .ZeroPageX, 4⟩
  | 0x4D => some ⟨.EOR, .Absolute, 4⟩
  | 0x5D => some ⟨.EOR, .AbsoluteX, 4⟩
  | 0x59 => some ⟨.EOR, .AbsoluteY, 3⟩
  | 0x41 => some ⟨.EOR, .IndexedIndirect, 6⟩
  | 0x51 => some ⟨.EOR, .IndirectIndexed, 5⟩
  | 0xE6 => some ⟨.INC, .ZeroPage, 5⟩
  | 0xF6 => some ⟨.INC, .ZeroPageX, 6⟩
  | 0xEE => some ⟨.INC, .Absolute, 6⟩
  | 0xFE => some ⟨.INC, .AbsoluteX, 7⟩
  | 0xE8 => some ⟨.INX, .Implied, 2⟩
  | 0xC8 => some ⟨.INY, .Implied, 2⟩
  | 0x4C => some ⟨.JMP, .Absolute, 3⟩
  | 0x6C => some ⟨.JMP, .Indirect, 5⟩
  | 0x20 => some ⟨.JSR, .Absolute, 6⟩
  | 0xA9 => some ⟨.LDA, .Immediate, 2⟩
  | 0xA5 => some ⟨.LDA, .ZeroPage, 3⟩
  | 0xB5 => some ⟨.LDA, .ZeroPageX, 4⟩
  | 0xAD => some ⟨.LDA, .Absolute, 4⟩
  | 0xBD => some ⟨.LDA, .AbsoluteX, 4⟩
  | 0xB9 => some ⟨.LDA, .AbsoluteY, 4⟩
  | 0xA1 => some ⟨.LDA, .IndexedIndirect, 6⟩
  | 0xB1 => some ⟨.LDA, .IndirectIndexed, 5⟩
  | 0xA2 => some ⟨.LDX, .Immediate, 2⟩
  | 0xA6 => some ⟨.LDX, .ZeroPage, 3⟩
  | 0xB6 => some ⟨.LDX, .ZeroPageY, 4⟩
  | 0xAE => some ⟨.LDX, .Absolute, 4⟩
  | 0xBE => some ⟨.LDX, .AbsoluteY, 4⟩
  | 0xA0 => some ⟨.LDY, .Immediate, 2⟩
  | 0xA4 => some ⟨.LDY, .ZeroPage, 3⟩
  | 0xB4 => some ⟨.LDY, .ZeroPageX, 4⟩
  | 0xAC => some ⟨.LDY, .Absolute, 4⟩
  | 0xBC => some ⟨.LDY, .AbsoluteX, 4⟩
  | 0x4A => some ⟨.LSR, .Accumulator, 2⟩
  | 0x46 => some ⟨.LSR, .ZeroPage, 5⟩
  | 0x56 => some ⟨.LSR, .ZeroPageX, 6⟩
  | 0x4E => some ⟨.LSR, .Absolute, 6⟩
  | 0x5E => some ⟨.LSR, .AbsoluteX, 7⟩
  | 0xEA => some ⟨.NOP, .Implied, 2⟩
  | 0x09 => some ⟨.ORA, .Immediate, 2⟩
  | 0x05 => some ⟨.ORA, .ZeroPage, 3⟩
  | 0x15 => some ⟨.ORA, .ZeroPageX, 4⟩
  | 0x0D => some ⟨.ORA, .Absolute, 4⟩
  | 0x1D => some ⟨.ORA, .AbsoluteX, 4⟩
  | 0x19 => some ⟨.ORA, .AbsoluteY, 4⟩
  | 0x01 => some ⟨.ORA, .IndexedIndirect, 6⟩
  | 0x11 => some ⟨.ORA, .IndirectIndexed, 5⟩
  | 0x48 => some ⟨.PHA, .Implied, 3⟩
  | 0x08 => some ⟨.PHP, .Implied, 3⟩
  | 0x68 => some ⟨.PLA, .Implied, 4⟩
  | 0x28 => some ⟨.PLP, .Implied, 4⟩
  | 0x2A => some ⟨.ROL, .Accumulator, 2⟩
  | 0x26 => some ⟨.ROL, .ZeroPage, 5⟩
  | 0x36 => some ⟨.ROL, .ZeroPageX, 6⟩
  | 0x2E => some ⟨.ROL, .Absolute, 6⟩
  | 0x3E => some ⟨.ROL, .AbsoluteX, 7⟩
  | 0x6A => some ⟨.ROR, .Accumulator, 2⟩
  | 0x66 => some ⟨.ROR, .ZeroPage, 5⟩
  | 0x76 => some ⟨.ROR, .ZeroPageX, 6⟩
  | 0x6E => some ⟨.ROR, .Absolute, 6⟩
  | 0x7E => some ⟨.ROR, .AbsoluteX, 7⟩
  | 0x40 => some ⟨.RTI, .Implied, 6⟩
  | 0x60 => some ⟨.RTS, .Implied, 6⟩
  | 0xE9 => some ⟨.SBC, .Immediate, 2⟩
  | 0xE5 => some ⟨.SBC, .ZeroPage, 3⟩
  | 0xF5 => some ⟨.SBC, .ZeroPageX, 4⟩
  | 0xED => some ⟨.SBC, .Absolute, 4⟩
  | 0xFD => some ⟨.SBC, .AbsoluteX, 4⟩
  | 0xF9 => some ⟨.SBC, .AbsoluteY, 4⟩
  | 0xE1 => some ⟨.SBC, .IndexedIndirect, 6⟩
  | 0xF1 => some ⟨.SBC, .IndirectIndexed, 5⟩
  | 0x38 => some ⟨.SEC, .Implied, 2⟩
  | 0xF8 => some ⟨.SED, .Implied, 2⟩
  | 0x78 => some ⟨.SEI, .Implied, 2⟩
  | 0x85 => some ⟨.STA, .ZeroPage, 3⟩
  | 0x95 => some ⟨.STA, .ZeroPageX, 4⟩
  | 0x8D => some ⟨.STA, .Absolute, 4⟩
  | 0x9D => some ⟨.STA, .AbsoluteX, 5⟩
  | 0x99 => some ⟨.STA, .AbsoluteY, 5⟩
  | 0x81 => some ⟨.STA, .IndexedIndirect, 6⟩
  | 0x91 => some ⟨.STA, .IndirectIndexed, 6⟩
  | 0x86 => some ⟨.STX, .ZeroPage, 3⟩
  | 0x96 => some ⟨.STX, .ZeroPageY, 4⟩
  | 0x8E => some ⟨.STX, .Absolute, 4⟩
  | 0x84 => some ⟨.STY, .ZeroPage, 3⟩
  | 0x94 => some ⟨.STY, .ZeroPageX, 4⟩
  | 0x8C => some ⟨.STY, .Absolute, 4⟩
  | 0xAA => some ⟨.TAX, .Implied, 2⟩
  | 0xA8 => some ⟨.TAY, .Implied, 2⟩
  | 0xBA => some ⟨.TSX, .Implied, 2⟩
  | 0x8A => some ⟨.TXA, .Implied, 2⟩
  | 0x9A => some ⟨.TXS, .Implied, 2⟩
  | 0x98 => some ⟨.TYA, .Implied, 2⟩
  | _ => none

/-- Combined machine state: the CPU registers of `NESCpu`, the fields of its
`CPUMemory` bus (internal RAM, I/O registers, the CPU-side NROM mapper's
PRG ROM and PRG RAM, the controller line and freeze latch), and the
attached PPU.  The source couples CPU and PPU through `Rc<RefCell<...>>`
back-references; here they live in one record.  `ppu_attached` models
`CPUMemory::ppu_registers : Option<..>` being `Some`; the `joy1_in`
shared cell is the byte `joy1In`. -/
structure Sys where
  status : Nat
  PC : Nat
  SP : Nat
  A : Nat
  X : Nat
  Y : Nat
  wait_cycles : Nat
  pc_skip : Nat
  dma_halt : Bool
  next_dma_addr : Nat
  last_legal_instruction : Option Nat
  do_nmi : Bool
  internal_ram : Nat → Nat
  io_registers : Nat → Nat
  prg_rom : Nat → Nat
  prg_capacity : Nat
  prg_ram : Nat → Nat
  ppu_attached : Bool
  joy1In : Nat
  joy_freeze : Bool
  ppu : Ppu

/-- CPU-side NROM mapper read, `CPUMapper000::read`: PRG RAM window at
`$6000-$7FFF`, PRG ROM at `$8000-$BFFF`, and at `$C000-$FFFF` either the
second 16 KiB bank or a mirror of the first depending on the PRG size. -/
def cpuMapperRead (s : Sys) (addr : Nat) : Nat :=
  if 0x6000 ≤ addr ∧ addr ≤ 0x7FFF then s.prg_ram (addr - 0x6000)
  else if 0x8000 ≤ addr ∧ addr ≤ 0xBFFF then s.prg_rom (addr - 0x8000)
  else if 0xC000 ≤ addr then
    if s.prg_capacity = 16384 then s.prg_rom (addr - 0xC000)
    else s.prg_rom (addr - 0x8000)
  else 0

/-- CPU-side NROM mapper write, `CPUMapper000::write`: only the PRG RAM
window is writable; everything else is silently dropped (always `Ok`). -/
def cpuMapperWrite (s : Sys) (addr data : Nat) : Sys :=
  if 0x6000 ≤ addr ∧ addr ≤ 0x7FFF then
    {s with prg_ram := upd s.prg_ram (addr - 0x6000) data}
  else s

/-- Silent CPU bus read, `CPUMemory::read` (the `MemoryRead::read` impl):
no side effects; reads of `$2000-$3FFF` are a `panic!` in the source
("attempted read of address with side-affect from observer"), modelled
as `none`. -/
def memRead (s : Sys) (addr : Nat) : Option Nat :=
  if addr ≤ 0x1FFF then some (s.internal_ram (addr &&& 0x07FF))
  else if addr ≤ 0x3FFF then none
  else if addr ≤ 0x4017 then some (s.io_registers (addr - 0x4000))
  else if addr ≤ 0x401F then some 0
  else some (cpuMapperRead s addr)

/-- Active CPU bus read, `CPUMemory::read_mut`: dispatches `$2000-$3FFF`
into the PPU register handlers (an `unwrap` panic when no PPU is
attached), and implements the `$4016` controller read — returning bit 0 of
the live `joy1_in` byte and, when not frozen, shifting that byte right. -/
def memReadMut (s : Sys) (addr : Nat) : Option (Nat × Sys) :=
  if addr ≤ 0x1FFF then some (s.internal_ram (addr &&& 0x07FF), s)
  else if addr ≤ 0x3FFF then
    if s.ppu_attached then
      (ppu_register_read s.ppu (0x2000 + (addr &&& 0x7))).map (fun dp => (dp.1, {s with ppu := dp.2}))
    else none
  else if addr ≤ 0x4017 then
    if addr = 0x4016 then
      if !s.joy_freeze then some (s.joy1In &&& 0x1, {s with joy1In := s.joy1In >>> 1})
      else some (s.joy1In &&& 0x1, s)
    else some (0, s)
  else if addr ≤ 0x401F then some (0, s)
  else some (cpuMapperRead s addr, s)

/-- Word read helper `CPUMemory::read_16` (silent, little-endian). -/
def memRead16 (s : Sys) (addr : Nat) : Option Nat :=
  (memRead s addr).bind fun lo =>
    (memRead s (u16 (addr + 1))).map fun hi => lo ||| (hi <<< 8)

/-- Word read helper `CPUMemory::read_16_mut` (active, little-endian). -/
def memRead16Mut (s : Sys) (addr : Nat) : Option (Nat × Sys) :=
  (memReadMut s addr).bind fun los =>
    (memReadMut los.2 (u16 (addr + 1))).map fun his => (los.1 ||| (his.1 <<< 8), his.2)

/-- CPU bus write, `CPUMemory::write`: the cascade of range tests of the
source — internal RAM, PPU registers (an `unwrap` panic when detached,
and `$2002` itself panics inside the handler), the `$4016` strobe with
its freeze latch and `io_registers[$16]` reload, the I/O register file,
and the mapper. -/
def memWrite (s : Sys) (addr data : Nat) : Option Sys :=
  let s := if addr &&& 0xF000 < 0x2000 then
      {s with internal_ram := upd s.internal_ram (addr &&& 0x07FF) data}
    else s
  let step2 : Option Sys :=
    if addr &&& 0xF000 = 0x2000 ∨ addr &&& 0xF000 = 0x3000 then
      if s.ppu_attached then
        (ppu_register_write s.ppu (0x2000 + (addr &&& 0x7)) data).map (fun p => {s with ppu := p})
      else none
    else some s
  step2.map fun s =>
    let s := if 0x4000 ≤ addr ∧ addr ≤ 0x4017 then
        let s := if addr = 0x4016 then
            if data &&& 0x1 = 0x1 then
              {s with joy_freeze := true, io_registers := upd s.io_registers 0x16 s.joy1In}
            else
              {s with joy_freeze := false}
          else s
        {s with io_registers := upd s.io_registers (addr - 0x4000) data}
      else s
    if 0x4020 ≤ addr then cpuMapperWrite s addr data else s

/-- Modelled from the spec: `CPUMemory::write_poam` is called from
`NESCpu::tick` but its definition is not among the sources.  The spec says
OAM DMA "copies `read(next_dma_addr)` to OAM (at OAMADDR, wrapping)" and
that the CPU "writes into `poam[(OAMADDR + i) & $FF]`", so the byte at
DMA offset `off` lands at primary-OAM index `(OAMADDR + off) mod 256`.
Access to the OAM goes through the attached PPU. -/
def write_poam (s : Sys) (off data : Nat) : Option Sys :=
  if s.ppu_attached then
    some {s with ppu := {s.ppu with poam := upd s.ppu.poam (u8 (s.ppu.oam_address + off)) data}}
  else none

/-- Update a status-register flag, `bitflags::set` on `StatusRegister`. -/
def statusSet (st mask : Nat) (b : Prop) [Decidable b] : Nat :=
  if b then st ||| mask else st &&& (0xFF ^^^ mask)

/-- Flag query `StatusRegister::contains` (all bits of the mask present). -/
def containsFlag (st mask : Nat) : Bool := decide (st &&& mask = mask)

/-- Sign extension of a byte operand, Rust `(x as i8) as u16`. -/
def signext8 (d : Nat) : Nat := if d ≥ 0x80 then d + 0xFF00 else d

/-- Addressing-mode resolution, `NESCpu::resolve_address`: silent operand
reads, producing `(resolved_address, page_cross, pc_skip)` with the page
cross measured between `PC + pc_skip` and the mode's target, exactly as in
the source.  The `Implied`/`Accumulator` arm is a `panic!`. -/
def resolve_address (s : Sys) (mode : Mode) : Option (Nat × Bool × Nat) :=
  let ta_skip : Option (Nat × Nat) :=
    match mode with
    | .ZeroPage | .ZeroPageX | .ZeroPageY | .IndirectIndexed
    | .IndexedIndirect | .Relative =>
        (memRead s (u16 (s.PC + 1))).map (fun d => (d, 2))
    | .Absolute | .AbsoluteX | .AbsoluteY | .Indirect =>
        (memRead16 s (u16 (s.PC + 1))).map (fun d => (d, 3))
    | .Immediate => some (0, 2)
    | _ => some (0, 1)
  ta_skip.bind fun ts =>
  let ta := ts.1
  let skip := ts.2
  match mode with
  | .Immediate => some (u16 (s.PC + 1), false, skip)
  | .ZeroPage =>
      some (ta &&& 0xFF, u16 (s.PC + skip) &&& 0xFF00 ≠ 0, skip)
  | .ZeroPageX =>
      some (((ta &&& 0xFF) + s.X) &&& 0xFF, u16 (s.PC + skip) &&& 0xFF00 ≠ 0, skip)
  | .ZeroPageY =>
      some (((ta &&& 0xFF) + s.Y) &&& 0xFF, u16 (s.PC + skip) &&& 0xFF00 ≠ 0, skip)
  | .Relative =>
      let target := u16 (s.PC + signext8 ta)
      some (target, u16 (s.PC + skip) &&& 0xFF00 ≠ target &&& 0xFF00, skip)
  | .Absolute =>
      some (ta, u16 (s.PC + skip) &&& 0xFF00 ≠ ta &&& 0xFF00, skip)
  | .AbsoluteX =>
      let target := u16 (ta + s.X)
      some (target, u16 (s.PC + skip) &&& 0xFF00 ≠ target &&& 0xFF00, skip)
  | .AbsoluteY =>
      let target := u16 (ta + s.Y)
      some (target, u16 (s.PC + skip) &&& 0xFF00 ≠ target &&& 0xFF00, skip)
  | .Indirect =>
      (memRead s ta).bind fun lsb =>
      (memRead s ((ta &&& 0xFF00) ||| (u16 (ta + 1) &&& 0x00FF))).map fun msb =>
      let target := lsb ||| (msb <<< 8)
      (target, u16 (s.PC + skip) &&& 0xFF00 ≠ target &&& 0xFF00, skip)
  | .IndexedIndirect =>
      (memRead s ((ta + s.X) &&& 0xFF)).bind fun lsb =>
      (memRead s ((ta + s.X + 1) &&& 0xFF)).map fun msb =>
      let target := lsb ||| (msb <<< 8)
      (target, u16 (s.PC + skip) &&& 0xFF00 ≠ target &&& 0xFF00, skip)
  | .IndirectIndexed =>
      (memRead s ta).bind fun zl =>
      (memRead s ((ta + 1) &&& 0xFF)).map fun zm =>
      let lo := zl + s.Y
      let carry := if lo > 0xFF then 1 else 0
      let target := (lo &&& 0xFF) ||| (((zm + carry) &&& 0xFF) <<< 8)
      (target, u16 (s.PC + skip) &&& 0xFF00 ≠ target &&& 0xFF00, skip)
  | _ => none

/-- Page-cross cycle penalty shared by the load / arithmetic / bitwise /
compare handlers: one cycle, only for the `AbsoluteX` / `AbsoluteY` /
`IndirectIndexed` modes. -/
def crossPenalty (mode : Mode) : Nat :=
  match mode with
  | .AbsoluteX | .AbsoluteY | .IndirectIndexed => 1
  | _ => 0

/-- Arithmetic ops ADC/SBC, `NESCpu::op_arithmetic::<ADD>`: SBC one's
complements the operand, then both share the ADC flag derivation. -/
def op_arithmetic (s : Sys) (add : Bool) (mode : Mode) : Option (Nat × Sys) :=
  (resolve_address s mode).bind fun r =>
  let s := {s with pc_skip := r.2.2}
  (memReadMut s r.1).map fun ds =>
  let data := if add then ds.1 else ds.1 ^^^ 0xFF
  let s := ds.2
  let sum1 := s.A + data
  let carry_data := sum1 > 0xFF
  let sum2 := u8 sum1 + (if containsFlag s.status 0x01 then 1 else 0)
  let carry_cin := sum2 > 0xFF
  let result := u8 sum2
  let st := statusSet s.status 0x01 (carry_data ∨ carry_cin)
  let st := statusSet st 0x02 (result = 0)
  let st := statusSet st 0x40 ((s.A ^^^ result) &&& (data ^^^ result) &&& 0x80 ≠ 0)
  let st := statusSet st 0x80 (result &&& 0x80 > 0)
  let s := {s with status := st}
  let s := if r.2.1 then {s with wait_cycles := s.wait_cycles + crossPenalty mode} else s
  (result, s)

/-- Load ops LDA/LDX/LDY, `NESCpu::op_load`. -/
def op_load (s : Sys) (mode : Mode) : Option (Nat × Sys) :=
  (resolve_address s mode).bind fun r =>
  let s := {s with pc_skip := r.2.2}
  (memReadMut s r.1).map fun ds =>
  let data := ds.1
  let s := ds.2
  let st := statusSet s.status 0x02 (data = 0)
  let st := statusSet st 0x80 (data &&& 0x80 > 0)
  let s := {s with status := st}
  let s := if r.2.1 then {s with wait_cycles := s.wait_cycles + crossPenalty mode} else s
  (data, s)

/-- Store ops STA/STX/STY, `NESCpu::op_store`: a store whose resolved
address is `$4014` additionally raises `dma_halt` with
`next_dma_addr = data << 8`. -/
def op_store (s : Sys) (data : Nat) (mode : Mode) : Option Sys :=
  (resolve_address s mode).bind fun r =>
  let s := if r.1 = 0x4014 then {s with dma_halt := true, next_dma_addr := data <<< 8} else s
  let s := {s with pc_skip := r.2.2}
  memWrite s r.1 data

/-- JMP, `NESCpu::op_jump`: loads PC and clears `pc_skip`. -/
def op_jump (s : Sys) (mode : Mode) : Option Sys :=
  (resolve_address s mode).map fun r =>
  {s with pc_skip := 0, PC := r.1}

/-- BIT, `NESCpu::op_bit`. -/
def op_bit (s : Sys) (mode : Mode) : Option Sys :=
  (resolve_address s mode).bind fun r =>
  (memReadMut s r.1).map fun ds =>
  let data := ds.1
  let s := ds.2
  let st := statusSet s.status 0x02 (s.A &&& data = 0)
  let st := statusSet st 0x40 (data &&& 0x40 > 0)
  let st := statusSet st 0x80 (data &&& 0x80 > 0)
  {s with status := st, pc_skip := r.2.2}

/-- Conditional branches, `NESCpu::op_branch`: when the tested flag matches,
one extra wait cycle, plus one more on the resolver's page cross, and PC is
set to the resolved (pre-`pc_skip`) target. -/
def op_branch (s : Sys) (mask : Nat) (set : Bool) (mode : Mode) : Option Sys :=
  (resolve_address s mode).map fun r =>
  let s := {s with pc_skip := r.2.2}
  if containsFlag s.status mask = set then
    let s := {s with wait_cycles := s.wait_cycles + 1}
    let s := if r.2.1 then {s with wait_cycles := s.wait_cycles + 1} else s
    {s with PC := r.1}
  else s

/-- Bitwise ops AND/EOR/ORA, `NESCpu::op_bitwise`. -/
def op_bitwise (s : Sys) (mode : Mode) (f : Nat → Nat → Nat) : Option (Nat × Sys) :=
  (resolve_address s mode).bind fun r =>
  let s := {s with pc_skip := r.2.2}
  (memReadMut s r.1).map fun ds =>
  let s := ds.2
  let result := f s.A ds.1
  let st := statusSet s.status 0x02 (result = 0)
  let st := statusSet st 0x80 (result &&& 0x80 > 0)
  let s := {s with status := st}
  let s := if r.2.1 then {s with wait_cycles := s.wait_cycles + crossPenalty mode} else s
  (result, s)

/-- Memory INC/DEC, `NESCpu::op_incdec_addr` (wrapping byte arithmetic). -/
def op_incdec_addr (s : Sys) (inc : Bool) (mode : Mode) : Option Sys :=
  (resolve_address s mode).bind fun r =>
  let s := {s with pc_skip := r.2.2}
  (memReadMut s r.1).bind fun ds =>
  let s := ds.2
  let result := if inc then u8 (ds.1 + 1) else u8 (ds.1 + 255)
  (memWrite s r.1 result).map fun s =>
  let st := statusSet s.status 0x02 (result = 0)
  let st := statusSet st 0x80 (result &&& 0x80 > 0)
  {s with status := st}

/-- Register INX/INY/DEX/DEY, `NESCpu::op_incdec`. -/
def op_incdec (s : Sys) (data : Nat) (inc : Bool) : Nat × Sys :=
  let result := if inc then u8 (data + 1) else u8 (data + 255)
  let st := statusSet s.status 0x02 (result = 0)
  let st := statusSet st 0x80 (result &&& 0x80 > 0)
  (result, {s with status := st, pc_skip := 1})

/-- Shift/rotate ops ASL/LSR/ROL/ROR, `NESCpu::op_rotate` (`left` selects
direction, `arith` zeroes the folded-in bit). -/
def op_rotate (s : Sys) (mode : Mode) (left arith : Bool) : Option Sys :=
  let transform := fun (st data : Nat) =>
    let old_carry := if containsFlag st 0x01 then 1 else 0
    if left then
      let st := statusSet st 0x01 (data &&& 0x80 > 0)
      let d := u8 ((data <<< 1) ||| (data >>> 7))
      let d := (d &&& 0xFE) ||| (if arith then 0 else old_carry)
      let st := statusSet st 0x80 (d &&& 0x80 > 0)
      (statusSet st 0x02 (d = 0), d)
    else
      let st := statusSet st 0x01 (data &&& 0x1 > 0)
      let d := (data >>> 1) ||| ((data &&& 0x1) <<< 7)
      let d := (d &&& 0x7F) ||| (if arith then 0 else old_carry <<< 7)
      let st := statusSet st 0x80 (d &&& 0x80 > 0)
      (statusSet st 0x02 (d = 0), d)
  if mode = .Accumulator then
    let td := transform s.status s.A
    some {s with status := td.1, A := td.2, pc_skip := 1}
  else
    (resolve_address s mode).bind fun r =>
    (memReadMut s r.1).bind fun ds =>
    let s := ds.2
    let td := transform s.status ds.1
    let s := {s with status := td.1}
    (memWrite s r.1 td.2).map fun s => {s with pc_skip := r.2.2}

/-- Register transfers TAX/TXA/TAY/TYA/TSX/TXS, `NESCpu::op_transfer_a`
(TXS skips the flag update). -/
def op_transfer_a (s : Sys) (from_ : Nat) (txs : Bool) : Nat × Sys :=
  let s := if !txs then
      let st := statusSet s.status 0x02 (from_ = 0)
      {s with status := statusSet st 0x80 (from_ &&& 0x80 > 0)}
    else s
  (from_, {s with pc_skip := 1})

/-- Compares CMP/CPX/CPY, `NESCpu::op_compare`. -/
def op_compare (s : Sys) (lhs : Nat) (mode : Mode) : Option Sys :=
  (resolve_address s mode).bind fun r =>
  let s := {s with pc_skip := r.2.2}
  (memReadMut s r.1).map fun ds =>
  let rhs := ds.1
  let s := ds.2
  let st := statusSet s.status 0x01 (lhs ≥ rhs)
  let st := statusSet st 0x02 (lhs = rhs)
  let st := statusSet st 0x80 (u8 (lhs + 256 - u8 rhs) &&& 0x80 > 0)
  let s := {s with status := st}
  if r.2.1 then {s with wait_cycles := s.wait_cycles + crossPenalty mode} else s

/-- Stack pushes PHA/PHP, `NESCpu::op_stack_push`: PHP pushes the status
with both BREAK bits forced to 1. -/
def op_stack_push (s : Sys) (pushStatus : Bool) : Option Sys :=
  let value := if pushStatus then s.status ||| 0x10 ||| 0x20 else s.A
  (memWrite s (s.SP + 0x0100) value).map fun s =>
  {s with SP := u8 (s.SP + 255), pc_skip := 1}

/-- Stack pulls PLA/PLP, `NESCpu::op_stack_pull`: returns the pulled byte;
only the non-status variant (PLA) updates Z/N. -/
def op_stack_pull (s : Sys) (pullStatus : Bool) : Option (Nat × Sys) :=
  let s := {s with SP := u8 (s.SP + 1), pc_skip := 1}
  (memReadMut s (s.SP + 0x0100)).map fun ds =>
  if pullStatus then (ds.1, ds.2)
  else
    let s := ds.2
    let st := statusSet s.status 0x02 (ds.1 = 0)
    (ds.1, {s with status := statusSet st 0x80 (ds.1 &&& 0x80 > 0)})

/-- Interrupt/subroutine entry, `NESCpu::enter_subroutine`: BRK advances PC
by 1 and JSR by 2 before pushing, the return address is pushed high byte
then low byte (with an explicit stack-underflow error), then BRK pushes the
status with B-low set (leaving B-low set in the live register) and loads
the `$FFFA` vector, IRQ/NMI push with B-low cleared and load `$FFFE` /
`$FFFA`.  The Bool is `false` when the stack-underflow `Err` was taken;
the state mutated so far is preserved either way. -/
def enter_subroutine (s : Sys) (t : IntType) : Option (Sys × Bool) :=
  if t = .IRQ ∧ containsFlag s.status 0x04 then some (s, true)
  else
  let s := match t with
    | .BRK => {s with PC := u16 (s.PC + 1)}
    | .SUBROUTINE => {s with PC := u16 (s.PC + 2)}
    | _ => s
  (memWrite s (s.SP + 0x0100) (s.PC >>> 8)).bind fun s =>
  if s.SP = 0 then some (s, false) else
  let s := {s with SP := s.SP - 1}
  (memWrite s (s.SP + 0x0100) (s.PC &&& 0xFF)).bind fun s =>
  if s.SP = 0 then some (s, false) else
  let s := {s with SP := s.SP - 1}
  match t with
  | .SUBROUTINE =>
      (memRead16Mut s (w16sub s.PC 1)).map fun vs =>
      ({vs.2 with PC := vs.1, pc_skip := 0}, true)
  | .BRK =>
      let s := {s with status := s.status ||| 0x10}
      (memWrite s (s.SP + 0x0100) s.status).bind fun s =>
      let s := {s with status := s.status ||| 0x04, SP := u8 (s.SP + 255)}
      (memRead16Mut s 0xFFFA).map fun vs =>
      ({vs.2 with PC := vs.1, pc_skip := 0}, true)
  | .IRQ =>
      let s := {s with status := s.status &&& 0xEF}
      (memWrite s (s.SP + 0x0100) s.status).bind fun s =>
      let s := {s with status := s.status ||| 0x04, SP := u8 (s.SP + 255)}
      (memRead16Mut s 0xFFFE).map fun vs =>
      ({vs.2 with PC := vs.1, pc_skip := 0}, true)
  | .NMI =>
      let s := {s with status := s.status &&& 0xEF}
      (memWrite s (s.SP + 0x0100) s.status).bind fun s =>
      let s := {s with status := s.status ||| 0x04, SP := u8 (s.SP + 255)}
      (memRead16Mut s 0xFFFA).map fun vs =>
      ({vs.2 with PC := vs.1, pc_skip := 0}, true)

/-- Return from subroutine or interrupt, `NESCpu::leave_subroutine`:
RTI additionally pops the status first; BRK/RTS add 1 to the popped PC. -/
def leave_subroutine (s : Sys) (t : IntType) : Option Sys :=
  let popst : Option Sys :=
    if t = .IRQ ∨ t = .BRK ∨ t = .NMI then
      let s := {s with SP := u8 (s.SP + 1)}
      (memReadMut s (s.SP + 0x0100)).map fun ds => {ds.2 with status := ds.1}
    else some s
  popst.bind fun s =>
  let s := {s with SP := u8 (s.SP + 1)}
  (memReadMut s (s.SP + 0x0100)).bind fun los =>
  let s := {los.2 with SP := u8 (los.2.SP + 1)}
  (memReadMut s (s.SP + 0x0100)).map fun his =>
  let pc := los.1 ||| (his.1 <<< 8)
  let pc := if t = .BRK ∨ t = .SUBROUTINE then u16 (pc + 1) else pc
  {his.2 with PC := pc, pc_skip := 0}

/-- Reset, `NESCpu::reset`: set interrupt-disable, force B-high, load the
PC from the `$FFFC/$FFFD` vector. -/
def cpuReset (s : Sys) : Option Sys :=
  let s := {s with status := s.status ||| 0x04 ||| 0x20}
  (memRead16Mut s 0xFFFC).map fun vs => {vs.2 with PC := vs.1}

/-- NMI handler, `NESCpu::nmi`: charge `wait_cycles = 6` (the source
comment says "NMI takes 7 cycles") and run the NMI entry, discarding the
underflow flag as the source discards the `Result`. -/
def cpuNmi (s : Sys) : Option Sys :=
  let s := {s with wait_cycles := 6}
  (enter_subroutine s .NMI).map (fun r => r.1)

/-- Execute stage of `NESCpu::tick`: dispatch on the instruction mnemonic
to the `op_*` handlers, exactly following the source's match. -/
def dispatch (s : Sys) (instr : Instruction) : Option Sys :=
  match instr.mnemonic with
  | .ADC => (op_arithmetic s true instr.mode).map (fun rs => {rs.2 with A := rs.1})
  | .AND => (op_bitwise s instr.mode (fun x y => x &&& y)).map (fun rs => {rs.2 with A := rs.1})
  | .ASL => op_rotate s instr.mode true true
  | .BCC => op_branch s 0x01 false instr.mode
  | .BCS => op_branch s 0x01 true instr.mode
  | .BEQ => op_branch s 0x02 true instr.mode
  | .BIT => op_bit s instr.mode
  | .BMI => op_branch s 0x80 true instr.mode
  | .BNE => op_branch s 0x02 false instr.mode
  | .BPL => op_branch s 0x80 false instr.mode
  | .BRK => (enter_subroutine s .BRK).bind (fun r => if r.2 then some r.1 else none)
  | .BVC => op_branch s 0x40 false instr.mode
  | .BVS => op_branch s 0x40 true instr.mode
  | .CLC => some {s with status := statusSet s.status 0x01 False, pc_skip := 1}
  | .CLD => some {s with status := statusSet s.status 0x08 False, pc_skip := 1}
  | .CLI => some {s with status := statusSet s.status 0x04 False, pc_skip := 1}
  | .CLV => some {s with status := statusSet s.status 0x40 False, pc_skip := 1}
  | .CMP => op_compare s s.A instr.mode
  | .CPX => op_compare s s.X instr.mode
  | .CPY => op_compare s s.Y instr.mode
  | .DEC => op_incdec_addr s false instr.mode
  | .DEX => let rs := op_incdec s s.X false; some {rs.2 with X := rs.1}
  | .DEY => let rs := op_incdec s s.Y false; some {rs.2 with Y := rs.1}
  | .EOR => (op_bitwise s instr.mode (fun x y => x ^^^ y)).map (fun rs => {rs.2 with A := rs.1})
  | .INC => op_incdec_addr s true instr.mode
  | .INX => let rs := op_incdec s s.X true; some {rs.2 with X := rs.1}
  | .INY => let rs := op_incdec s s.Y true; some {rs.2 with Y := rs.1}
  | .JMP => op_jump s instr.mode
  | .JSR => (enter_subroutine s .SUBROUTINE).bind (fun r => if r.2 then some r.1 else none)
  | .LDA => (op_load s instr.mode).map (fun rs => {rs.2 with A := rs.1})
  | .LDX => (op_load s instr.mode).map (fun rs => {rs.2 with X := rs.1})
  | .LDY => (op_load s instr.mode).map (fun rs => {rs.2 with Y := rs.1})
  | .LSR => op_rotate s instr.mode false true
  | .NOP => some {s with pc_skip := 1}
  | .ORA => (op_bitwise s instr.mode (fun x y => x ||| y)).map (fun rs => {rs.2 with A := rs.1})
  | .PHA => op_stack_push s false
  | .PHP => op_stack_push s true
  | .PLA => (op_stack_pull s false).map (fun rs => {rs.2 with A := rs.1})
  | .PLP => (op_stack_pull s true).map (fun rs => {rs.2 with status := rs.1})
  | .ROL => op_rotate s instr.mode true false
  | .ROR => op_rotate s instr.mode false false
  | .RTI => leave_subroutine s .IRQ
  | .RTS => leave_subroutine s .SUBROUTINE
  | .SBC => (op_arithmetic s false instr.mode).map (fun rs => {rs.2 with A := rs.1})
  | .SEC => some {s with status := statusSet s.status 0x01 True, pc_skip := 1}
  | .SED => some {s with status := statusSet s.status 0x08 True, pc_skip := 1}
  | .SEI => some {s with status := statusSet s.status 0x04 True, pc_skip := 1}
  | .STA => op_store s s.A instr.mode
  | .STX => op_store s s.X instr.mode
  | .STY => op_store s s.Y instr.mode
  | .TAX => let rs := op_transfer_a s s.A false; some {rs.2 with X := rs.1}
  | .TAY => let rs := op_transfer_a s s.A false; some {rs.2 with Y := rs.1}
  | .TSX => let rs := op_transfer_a s s.SP false; some {rs.2 with X := rs.1}
  | .TXS => let rs := op_transfer_a s s.X true; some {rs.2 with SP := rs.1}
  | .TXA => let rs := op_transfer_a s s.X false; some {rs.2 with A := rs.1}
  | .TYA => let rs := op_transfer_a s s.Y false; some {rs.2 with A := rs.1}

/-- One CPU tick, `NESCpu::tick` (release build: the `cycle` bump is under
`cfg(debug_assertions)`).  Order as in the source: the DMA stall copies one
byte and returns; otherwise a pending NMI performs its entry (and then
execution falls through to the wait-cycle check within the same tick);
outstanding wait cycles absorb the tick; otherwise fetch, record
`last_legal_instruction`, dispatch, charge `base_cycles - 1` and advance
PC by `pc_skip`.  A decode failure is the source's `Err`. -/
def cpuTick (s : Sys) : Option Sys :=
  if s.dma_halt then
    (memRead s (u16 s.next_dma_addr)).bind fun data =>
    (write_poam s (s.next_dma_addr &&& 0xFF) data).map fun s =>
    let s := if s.next_dma_addr &&& 0xFF = 0xFF then {s with dma_halt := false} else s
    {s with next_dma_addr := s.next_dma_addr + 1}
  else
    let afterNmi : Option Sys :=
      if s.do_nmi then (cpuNmi s).map (fun s => {s with do_nmi := false}) else some s
    afterNmi.bind fun s =>
    if s.wait_cycles > 0 then some {s with wait_cycles := s.wait_cycles - 1}
    else
      (memReadMut s s.PC).bind fun ops =>
      match LUT_6502 ops.1 with
      | none => none
      | some instr =>
        let s := {ops.2 with last_legal_instruction := some ops.2.PC}
        (dispatch s instr).map fun s =>
        let s := {s with wait_cycles := u16 (s.wait_cycles + instr.cycles - 1)}
        {s with PC := u16 (s.PC + s.pc_skip)}

/-- Iterated CPU ticks (the host coordinator calling `tick` repeatedly),
stopping at the first failure. -/
def cpuTickN : Nat → Sys → Option Sys
  | 0, s => some s
  | n + 1, s => (cpuTick s).bind (cpuTickN n)

/-!
Clock abstraction of the PPU's dot/scanline bookkeeping.  The
`(scanline, tick)` pair of `ppu_tick` evolves autonomously: no other part
of the dot loop feeds back into it except the scanline-0 dot-0 idle skip,
which depends only on the pair itself.  `clockStep` is that evolution and
`clockWrap` flags the dots on which `frame_ready` is raised; the
simulation lemmas below connect them to `ppuTickOne`.
-/

/-- One dot of the `(scanline, tick)` clock: the idle skip, then the
increment-and-wrap bookkeeping of `ppu_tick`. -/
def clockStep (c : Nat × Nat) : Nat × Nat :=
  let t := if c.1 = 0 ∧ c.2 = 0 then 1 else c.2
  if 341 ≤ t + 1 then (if 262 ≤ c.1 + 1 then (0, 0) else (c.1 + 1, 0)) else (c.1, t + 1)

/-- Does this dot wrap into a new frame (raising `frame_ready`)? -/
def clockWrap (c : Nat × Nat) : Bool :=
  let t := if c.1 = 0 ∧ c.2 = 0 then 1 else c.2
  decide (341 ≤ t + 1 ∧ 262 ≤ c.1 + 1)

/-- Iterated clock steps. -/
def clockIter : Nat → Nat × Nat → Nat × Nat
  | 0, c => c
  | n + 1, c => clockIter n (clockStep c)

/-- The `frame_ready` flag after `n` clock steps from pair `c`, starting
from flag value `fr` (it is only ever raised, never cleared). -/
def frState : Nat × Nat → Bool → Nat → Bool
  | _, fr, 0 => fr
  | c, fr, n + 1 => frState (clockStep c) (fr || clockWrap c) n

/-- A power-on machine state mirroring `NESCpu::new` (zeroed registers and
arrays, detached PPU, a fresh `NESPpu::new` PPU alongside). -/
def sysNew : Sys where
  status := 0
  PC := 0
  SP := 0
  A := 0
  X := 0
  Y := 0
  wait_cycles := 0
  pc_skip := 0
  dma_halt := false
  next_dma_addr := 0
  last_legal_instruction := none
  do_nmi := false
  internal_ram := fun _ => 0
  io_registers := fun _ => 0
  prg_rom := fun _ => 0
  prg_capacity := 0
  prg_ram := fun _ => 0
  ppu_attached := false
  joy1In := 0
  joy_freeze := false
  ppu := ppuNew .Horizontal

/-- CPU about to take a pending NMI: `do_nmi` raised by the PPU, no wait
cycles, PC at `$8000`, SP `$FD`, both BREAK bits set in the live status,
NMI vector `$FFFA/$FFFB` pointing at `$9000` where a NOP sits. -/
def nmiSys : Sys :=
  {sysNew with PC := 0x8000,
               SP := 0xFD,
               status := 0x30,
               do_nmi := true,
               prg_capacity := 32768,
               prg_rom := (fun a =>
                 if a = 0x7FFA then 0x00 else if a = 0x7FFB then 0x90
                 else if a = 0x1000 then 0xEA else 0)}

/-- PPU at scanline 241 dot 1 with the PPUCTRL NMI-enable bit set. -/
def vblankPpu : Ppu :=
  {ppuNew .Horizontal with scanline := 241, tick := 1, ppu_ctrl := 0x80}

/-- CPU about to execute `STA $4014` (`8D 14 40` at `$8000`) with `A = $03`,
internal RAM `$0300-$03FF` holding the pattern `(i + 7) mod 256`, the PPU
attached with OAMADDR = 5. -/
def dmaSys : Sys :=
  {sysNew with PC := 0x8000,
               A := 0x03,
               SP := 0xFD,
               status := 0x24,
               ppu_attached := true,
               prg_capacity := 32768,
               internal_ram := (fun a => if 0x300 ≤ a ∧ a ≤ 0x3FF then (a - 0x300 + 7) % 256 else 0),
               prg_rom := (fun a => if a = 0 then 0x8D else if a = 1 then 0x14
                                    else if a = 2 then 0x40 else 0),
               ppu := {ppuNew .Horizontal with oam_address := 5}}

/-- CPU about to execute BRK (`00` at `$8000`) with SP `$FD`, B-high set,
NMI vector `$FFFA/$FFFB` = `$9ABC` and IRQ/BRK vector `$FFFE/$FFFF` =
`$DEF0`. -/
def brkSys : Sys :=
  {sysNew with PC := 0x8000,
               SP := 0xFD,
               status := 0x20,
               prg_capacity := 32768,
               prg_rom := (fun a =>
                 if a = 0x7FFA then 0xBC else if a = 0x7FFB then 0x9A
                 else if a = 0x7FFE then 0xF0 else if a = 0x7FFF then 0xDE else 0)}

/-- CPU about to execute BEQ with a set Z flag: opcode `F0` at `pc`,
displacement byte `disp` at `pc + 1`, 32 KiB PRG. -/
def branchSys (pc disp : Nat) : Sys :=
  {sysNew with PC := pc,
               status := 0x02,
               prg_capacity := 32768,
               prg_rom := (fun a => if a = pc - 0x8000 then 0xF0
                                    else if a = pc + 1 - 0x8000 then disp else 0)}

/-- PPU with `v` in the palette range (`$3F00`), a distinctive palette
byte, read buffer `$11`, and nametable byte `$5C` at the horizontal mirror
of address `$2007` (VRAM index 7). -/
def paletteReadPpu : Ppu :=
  {ppuNew .Horizontal with vram_v := 0x3F00,
                           data_bus_next := 0x11,
                           palette := (fun i => if i = 0 then 0x2A else 0),
                           vram := (fun i => if i = 7 then 0x5C else 0)}

/-- CPU about to execute PLP (`28` at `$8000`) pulling the stack byte `$00`
(all internal RAM is zero), SP `$FC`, live status `$24`. -/
def plpSys : Sys :=
  {sysNew with PC := 0x8000,
               SP := 0xFC,
               status := 0x24,
               prg_capacity := 32768,
               prg_rom := (fun a => if a = 0 then 0x28 else 0)}

/-- PPU state at dot 0 of scanline 0, the start of a frame. -/
def frameStartPpu : Ppu :=
  {ppuNew .Horizontal with scanline := 0, tick := 0}

/-- A run of `n` active `$4016` reads, returning the bytes in order
(the host polling the controller port). -/
def joyReadN : Nat → Sys → Option (List Nat × Sys)
  | 0, s => some ([], s)
  | n + 1, s =>
      (memReadMut s 0x4016).bind fun ds =>
      (joyReadN n ds.2).map fun ls => (ds.1 :: ls.1, ls.2)

/-- Checks that each of the next `n` CPU ticks is a pure DMA-copy tick:
no instruction executes (PC, `last_legal_instruction`, `wait_cycles` and
`do_nmi` are untouched) and the DMA source address advances by exactly
one. -/
def dmaRunCheck : Nat → Sys → Bool
  | 0, _ => true
  | n + 1, s =>
      match cpuTick s with
      | none => false
      | some t =>
          (t.PC == s.PC) && (t.do_nmi == s.do_nmi) && (t.wait_cycles == s.wait_cycles) &&
          (t.last_legal_instruction == s.last_legal_instruction) &&
          (t.next_dma_addr == s.next_dma_addr + 1) && dmaRunCheck n t

theorem bgShiftRegs_clock (p : Ppu) :
    (bgShiftRegs p).scanline = p.scanline ∧ (bgShiftRegs p).tick = p.tick ∧
    (bgShiftRegs p).frame_ready = p.frame_ready := by
  unfold bgShiftRegs; split_ifs <;> simp

theorem spriteShiftRegs_clock (p : Ppu) :
    (spriteShiftRegs p).scanline = p.scanline ∧ (spriteShiftRegs p).tick = p.tick ∧
    (spriteShiftRegs p).frame_ready = p.frame_ready := by
  unfold spriteShiftRegs; split_ifs <;> simp

theorem bgFetchPhase_clock (p : Ppu) :
    (bgFetchPhase p).scanline = p.scanline ∧ (bgFetchPhase p).tick = p.tick ∧
    (bgFetchPhase p).frame_ready = p.frame_ready := by
  unfold bgFetchPhase; split <;> (try split_ifs) <;> simp

theorem bgShiftAndFetch_clock (p : Ppu) :
    (bgShiftAndFetch p).scanline = p.scanline ∧ (bgShiftAndFetch p).tick = p.tick ∧
    (bgShiftAndFetch p).frame_ready = p.frame_ready := by
  unfold bgShiftAndFetch
  have h1 := bgShiftRegs_clock p
  have h2 := spriteShiftRegs_clock (bgShiftRegs p)
  have h3 := bgFetchPhase_clock (spriteShiftRegs (bgShiftRegs p))
  exact ⟨by rw [h3.1, h2.1, h1.1], by rw [h3.2.1, h2.2.1, h1.2.1], by rw [h3.2.2, h2.2.2, h1.2.2]⟩

theorem fineYScroll_clock (p : Ppu) :
    (fineYScroll p).scanline = p.scanline ∧ (fineYScroll p).tick = p.tick ∧
    (fineYScroll p).frame_ready = p.frame_ready := by
  unfold fineYScroll; (try dsimp only); split_ifs <;> simp

theorem copyHorizontalBits_clock (p : Ppu) :
    (copyHorizontalBits p).scanline = p.scanline ∧ (copyHorizontalBits p).tick = p.tick ∧
    (copyHorizontalBits p).frame_ready = p.frame_ready := by
  unfold copyHorizontalBits; split_ifs <;> simp

theorem copyVerticalBits_clock (p : Ppu) :
    (copyVerticalBits p).scanline = p.scanline ∧ (copyVerticalBits p).tick = p.tick ∧
    (copyVerticalBits p).frame_ready = p.frame_ready := by
  unfold copyVerticalBits; split_ifs <;> simp

theorem spriteEvaluationDot_clock (p : Ppu) :
    (spriteEvaluationDot p).scanline = p.scanline ∧ (spriteEvaluationDot p).tick = p.tick ∧
    (spriteEvaluationDot p).frame_ready = p.frame_ready := by
  unfold spriteEvaluationDot; (try dsimp only); split_ifs <;> simp

theorem spriteFetchDot_clock (p : Ppu) :
    (spriteFetchDot p).scanline = p.scanline ∧ (spriteFetchDot p).tick = p.tick ∧
    (spriteFetchDot p).frame_ready = p.frame_ready := by
  unfold spriteFetchDot; (try dsimp only); split <;> (try split_ifs) <;> simp

theorem spriteEvalAndFetch_clock (p : Ppu) :
    (spriteEvalAndFetch p).scanline = p.scanline ∧ (spriteEvalAndFetch p).tick = p.tick ∧
    (spriteEvalAndFetch p).frame_ready = p.frame_ready := by
  unfold spriteEvalAndFetch
  split_ifs <;> simp [spriteEvaluationDot_clock, spriteFetchDot_clock]

theorem idleSkipStep_clock (p : Ppu) :
    (idleSkipStep p).scanline = p.scanline ∧
    (idleSkipStep p).tick = (if p.scanline = 0 ∧ p.tick = 0 then 1 else p.tick) ∧
    (idleSkipStep p).frame_ready = p.frame_ready := by
  unfold idleSkipStep; split_ifs <;> simp_all

theorem statusClearStep_clock (p : Ppu) :
    (statusClearStep p).scanline = p.scanline ∧ (statusClearStep p).tick = p.tick ∧
    (statusClearStep p).frame_ready = p.frame_ready := by
  unfold statusClearStep; split_ifs <;> simp

theorem bgPipelineStep_clock (p : Ppu) :
    (bgPipelineStep p).scanline = p.scanline ∧ (bgPipelineStep p).tick = p.tick ∧
    (bgPipelineStep p).frame_ready = p.frame_ready := by
  unfold bgPipelineStep; split_ifs <;> simp [bgShiftAndFetch_clock]

theorem fineYStep_clock (p : Ppu) :
    (fineYStep p).scanline = p.scanline ∧ (fineYStep p).tick = p.tick ∧
    (fineYStep p).frame_ready = p.frame_ready := by
  unfold fineYStep; split_ifs <;> simp [fineYScroll_clock]

theorem copyHStep_clock (p : Ppu) :
    (copyHStep p).scanline = p.scanline ∧ (copyHStep p).tick = p.tick ∧
    (copyHStep p).frame_ready = p.frame_ready := by
  unfold copyHStep; split_ifs <;> simp [copyHorizontalBits_clock]

theorem copyVStep_clock (p : Ppu) :
    (copyVStep p).scanline = p.scanline ∧ (copyVStep p).tick = p.tick ∧
    (copyVStep p).frame_ready = p.frame_ready := by
  unfold copyVStep; split_ifs <;> simp [copyVerticalBits_clock]

theorem superfluousStep_clock (p : Ppu) :
    (superfluousStep p).scanline = p.scanline ∧ (superfluousStep p).tick = p.tick ∧
    (superfluousStep p).frame_ready = p.frame_ready := by
  unfold superfluousStep; split_ifs <;> simp

theorem spritePipelineStep_clock (p : Ppu) :
    (spritePipelineStep p).scanline = p.scanline ∧ (spritePipelineStep p).tick = p.tick ∧
    (spritePipelineStep p).frame_ready = p.frame_ready := by
  unfold spritePipelineStep; split_ifs <;> simp [spriteEvalAndFetch_clock]

theorem ppuDotRender_clock (p : Ppu) :
    (ppuDotRender p).scanline = p.scanline ∧
    (ppuDotRender p).tick = (if p.scanline = 0 ∧ p.tick = 0 then 1 else p.tick) ∧
    (ppuDotRender p).frame_ready = p.frame_ready := by
  unfold ppuDotRender
  have h1 := idleSkipStep_clock p
  have h2 := statusClearStep_clock (idleSkipStep p)
  have h3 := bgPipelineStep_clock (statusClearStep (idleSkipStep p))
  have h4 := fineYStep_clock (bgPipelineStep (statusClearStep (idleSkipStep p)))
  have h5 := copyHStep_clock (fineYStep (bgPipelineStep (statusClearStep (idleSkipStep p))))
  have h6 := copyVStep_clock (copyHStep (fineYStep (bgPipelineStep (statusClearStep (idleSkipStep p)))))
  have h7 := superfluousStep_clock (copyVStep (copyHStep (fineYStep (bgPipelineStep (statusClearStep (idleSkipStep p))))))
  have h8 := spritePipelineStep_clock (superfluousStep (copyVStep (copyHStep (fineYStep (bgPipelineStep (statusClearStep (idleSkipStep p)))))))
  refine ⟨?_, ?_, ?_⟩
  · rw [h8.1, h7.1, h6.1, h5.1, h4.1, h3.1, h2.1, h1.1]
  · rw [h8.2.1, h7.2.1, h6.2.1, h5.2.1, h4.2.1, h3.2.1, h2.2.1, h1.2.1]
  · rw [h8.2.2, h7.2.2, h6.2.2, h5.2.2, h4.2.2, h3.2.2, h2.2.2, h1.2.2]

theorem ppuDotVblank_clock (p : Ppu) (b : Bool) :
    (ppuDotVblank p b).1.scanline = p.scanline ∧ (ppuDotVblank p b).1.tick = p.tick ∧
    (ppuDotVblank p b).1.frame_ready = p.frame_ready := by
  unfold ppuDotVblank; split_ifs <;> simp

theorem ppuDotMux_clock (p : Ppu) :
    (ppuDotMux p).scanline = p.scanline ∧ (ppuDotMux p).tick = p.tick ∧
    (ppuDotMux p).frame_ready = p.frame_ready := by
  unfold ppuDotMux
  dsimp only
  refine ⟨?_, ?_, ?_⟩
  · rw [apply_ite Ppu.scanline]; simp
  · rw [apply_ite Ppu.tick]; simp
  · rw [apply_ite Ppu.frame_ready]; simp

theorem ppuDotBookkeeping_clock (p : Ppu) :
    (ppuDotBookkeeping p).scanline =
      (if 341 ≤ p.tick + 1 then (if 262 ≤ p.scanline + 1 then 0 else p.scanline + 1) else p.scanline) ∧
    (ppuDotBookkeeping p).tick = (if 341 ≤ p.tick + 1 then 0 else p.tick + 1) ∧
    (ppuDotBookkeeping p).frame_ready =
      (p.frame_ready || decide (341 ≤ p.tick + 1 ∧ 262 ≤ p.scanline + 1)) := by
  unfold ppuDotBookkeeping; (try dsimp only); split_ifs <;> simp_all

/-- One PPU dot simulates one clock step on the `(scanline, tick)` pair and
the `frame_ready` recurrence. -/
theorem ppuTickOne_clock (p : Ppu) (b : Bool) :
    (ppuTickOne p b).1.scanline = (clockStep (p.scanline, p.tick)).1 ∧
    (ppuTickOne p b).1.tick = (clockStep (p.scanline, p.tick)).2 ∧
    (ppuTickOne p b).1.frame_ready = (p.frame_ready || clockWrap (p.scanline, p.tick)) := by
  unfold ppuTickOne
  dsimp only
  split_ifs with harm harm2
  · have hr := ppuDotRender_clock p
    have hm := ppuDotMux_clock (ppuDotRender p)
    have hb := ppuDotBookkeeping_clock (ppuDotMux (ppuDotRender p))
    (try dsimp only)
    rw [hb.1, hb.2.1, hb.2.2, hm.1, hm.2.1, hm.2.2, hr.1, hr.2.1, hr.2.2]
    unfold clockStep clockWrap
    (try dsimp only)
    split_ifs <;> simp_all <;> omega
  · have hv := ppuDotVblank_clock p b
    have hm := ppuDotMux_clock (ppuDotVblank p b).1
    have hb := ppuDotBookkeeping_clock (ppuDotMux (ppuDotVblank p b).1)
    (try dsimp only)
    rw [hb.1, hb.2.1, hb.2.2, hm.1, hm.2.1, hm.2.2, hv.1, hv.2.1, hv.2.2]
    unfold clockStep clockWrap
    (try dsimp only)
    split_ifs <;> simp_all <;> omega
  · have hm := ppuDotMux_clock p
    have hb := ppuDotBookkeeping_clock (ppuDotMux p)
    (try dsimp only)
    rw [hb.1, hb.2.1, hb.2.2, hm.1, hm.2.1, hm.2.2]
    unfold clockStep clockWrap
    (try dsimp only)
    split_ifs <;> simp_all <;> omega

/-- Iterated dots simulate iterated clock steps and the `frame_ready`
recurrence. -/
theorem ppu_tick_clock (n : Nat) : ∀ (p : Ppu) (b : Bool),
    (ppu_tick p b n).1.scanline = (clockIter n (p.scanline, p.tick)).1 ∧
    (ppu_tick p b n).1.tick = (clockIter n (p.scanline, p.tick)).2 ∧
    (ppu_tick p b n).1.frame_ready = frState (p.scanline, p.tick) p.frame_ready n := by
  induction n with
  | zero => intro p b; exact ⟨rfl, rfl, rfl⟩
  | succ n ih =>
      intro p b
      have h1 := ppuTickOne_clock p b
      have h2 := ih (ppuTickOne p b).1 (ppuTickOne p b).2
      unfold ppu_tick
      have e : ((clockStep (p.scanline, p.tick)).1, (clockStep (p.scanline, p.tick)).2) =
          clockStep (p.scanline, p.tick) := rfl
      refine ⟨?_, ?_, ?_⟩
      · rw [h2.1, h1.1, h1.2.1, e]; rfl
      · rw [h2.2.1, h1.1, h1.2.1, e]; rfl
      · rw [h2.2.2, h1.1, h1.2.1, h1.2.2, e]; rfl

/-- Characterization of one clock step away from the wrap points. -/
theorem clockStep_mid (s t : Nat) (h0 : ¬(s = 0 ∧ t = 0)) (h1 : t + 1 ≤ 340) :
    clockStep (s, t) = (s, t + 1) := by
  unfold clockStep
  dsimp only
  rw [if_neg h0]
  rw [if_neg (show ¬341 ≤ t + 1 from by omega)]

/-- The idle skip: the dot at `(0, 0)` lands on tick 2. -/
theorem clockStep_skip : clockStep (0, 0) = (0, 2) := by decide

/-- End of a scanline below 261. -/
theorem clockStep_wrapline (s : Nat) (h : s ≤ 260) : clockStep (s, 340) = (s + 1, 0) := by
  unfold clockStep
  dsimp only
  rw [if_neg (show ¬(s = 0 ∧ 340 = 0) from by omega)]
  rw [if_pos (show 341 ≤ 340 + 1 from by omega)]
  rw [if_neg (show ¬262 ≤ s + 1 from by omega)]

/-- End of scanline 261: wrap to a fresh frame. -/
theorem clockStep_wrapframe : clockStep (261, 340) = (0, 0) := by decide

/-- `clockWrap` is false while the dot has not reached 340 on scanline
261 (and everywhere below scanline 261 with the skip accounted). -/
theorem clockWrap_false (s t : Nat) (h0 : ¬(s = 0 ∧ t = 0)) (h : ¬(341 ≤ t + 1 ∧ 262 ≤ s + 1)) :
    clockWrap (s, t) = false := by
  unfold clockWrap
  dsimp only
  rw [if_neg h0]
  simp only [decide_eq_false_iff_not]
  exact h

/-- `clockWrap` fires on dot 340 of scanline 261. -/
theorem clockWrap_fire : clockWrap (261, 340) = true := by decide

/-- Splitting an iterated clock run. -/
theorem clockIter_add (m : Nat) : ∀ (n : Nat) (c : Nat × Nat),
    clockIter (m + n) c = clockIter n (clockIter m c) := by
  induction m with
  | zero => intro n c; rw [Nat.zero_add]; rfl
  | succ m ih =>
      intro n c
      have : m + 1 + n = (m + n) + 1 := by omega
      rw [this]
      show clockIter (m + n) (clockStep c) = clockIter n (clockIter m (clockStep c))
      exact ih n (clockStep c)

/-- Splitting an iterated `frame_ready` run. -/
theorem frState_add (m : Nat) : ∀ (n : Nat) (c : Nat × Nat) (fr : Bool),
    frState c fr (m + n) = frState (clockIter m c) (frState c fr m) n := by
  induction m with
  | zero => intro n c fr; rw [Nat.zero_add]; rfl
  | succ m ih =>
      intro n c fr
      have : m + 1 + n = (m + n) + 1 := by omega
      rw [this]
      show frState (clockStep c) (fr || clockWrap c) (m + n) = _
      rw [ih n (clockStep c) (fr || clockWrap c)]
      rfl

/-- Once raised, the flag stays raised. -/
theorem frState_true (n : Nat) : ∀ (c : Nat × Nat), frState c true n = true := by
  induction n with
  | zero => intro c; rfl
  | succ n ih =>
      intro c
      show frState (clockStep c) (true || clockWrap c) n = true
      rw [Bool.true_or]
      exact ih (clockStep c)

/-- Mid-scanline advance: while the dot stays at most 340 the clock just
counts dots. -/
theorem clockIter_advance (k : Nat) : ∀ (s t : Nat), 1 ≤ t → t + k ≤ 340 →
    clockIter k (s, t) = (s, t + k) := by
  induction k with
  | zero => intro s t _ _; rfl
  | succ k ih =>
      intro s t h1 h2
      show clockIter k (clockStep (s, t)) = _
      rw [clockStep_mid s t (by omega) (by omega), ih s (t + 1) (by omega) (by omega)]
      have : t + 1 + k = t + (k + 1) := by omega
      rw [this]

/-- Finishing a scanline below 261: from dot `t ≥ 1`, after `341 - t` dots
the clock sits at dot 0 of the next scanline. -/
theorem clockIter_endline (s t k : Nat) (hs : s ≤ 260) (h1 : 1 ≤ t) (h2 : t ≤ 340)
    (h3 : t + k = 341) : clockIter k (s, t) = (s + 1, 0) := by
  have hk : k = (340 - t) + 1 := by omega
  rw [hk, clockIter_add (340 - t) 1 (s, t), clockIter_advance (340 - t) s t h1 (by omega)]
  have h340 : t + (340 - t) = 340 := by omega
  rw [h340]
  show clockStep (s, 340) = (s + 1, 0)
  exact clockStep_wrapline s hs

/-- Finishing the pre-render scanline 261 wraps to `(0, 0)`. -/
theorem clockIter_endframe (t k : Nat) (h1 : 1 ≤ t) (h2 : t ≤ 340)
    (h3 : t + k = 341) : clockIter k (261, t) = (0, 0) := by
  have hk : k = (340 - t) + 1 := by omega
  rw [hk, clockIter_add (340 - t) 1 (261, t), clockIter_advance (340 - t) 261 t h1 (by omega)]
  have h340 : t + (340 - t) = 340 := by omega
  rw [h340]
  show clockStep (261, 340) = (0, 0)
  exact clockStep_wrapframe

/-- A full scanline from dot 0 (scanline at least 1, at most 260) is 341
dots. -/
theorem clockIter_fullline (s : Nat) (h1 : 1 ≤ s) (h2 : s ≤ 260) :
    clockIter 341 (s, 0) = (s + 1, 0) := by
  show clockIter 340 (clockStep (s, 0)) = _
  rw [clockStep_mid s 0 (by omega) (by omega)]
  exact clockIter_endline s 1 340 h2 (by omega) (by omega) (by omega)

/-- Consecutive full scanlines. -/
theorem clockIter_scanlines (n : Nat) : ∀ (s : Nat), 1 ≤ s → s + n ≤ 261 →
    clockIter (341 * n) (s, 0) = (s + n, 0) := by
  induction n with
  | zero => intro s _ _; rfl
  | succ n ih =>
      intro s h1 h2
      have hsplit : 341 * (n + 1) = 341 + 341 * n := by ring
      rw [hsplit, clockIter_add 341 (341 * n) (s, 0),
          clockIter_fullline s h1 (by omega), ih (s + 1) (by omega) (by omega)]
      have : s + 1 + n = s + (n + 1) := by omega
      rw [this]

/-- From reset `(261, 0)`, 341 dots reach the frame wrap at `(0, 0)`. -/
theorem clockIter_341_reset : clockIter 341 (261, 0) = (0, 0) := by
  show clockIter 340 (clockStep (261, 0)) = _
  rw [clockStep_mid 261 0 (by omega) (by omega)]
  exact clockIter_endframe 1 340 (by omega) (by omega) (by omega)

/-- Scanline 0 takes only 340 dots because of the unconditional idle skip. -/
theorem clockIter_line0 : clockIter 340 (0, 0) = (1, 0) := by
  show clockIter 339 (clockStep (0, 0)) = _
  rw [clockStep_skip]
  exact clockIter_endline 0 2 339 (by omega) (by omega) (by omega) (by omega)

/-- The frame period of the clock: 89,341 dots from `(0, 0)` back to
`(0, 0)` (340 for scanline 0, then 261 full scanlines). -/
theorem clockIter_period : clockIter 89341 (0, 0) = (0, 0) := by
  have hsplit : (89341 : Nat) = 340 + (88660 + 341) := by norm_num
  rw [hsplit, clockIter_add 340 (88660 + 341) (0, 0), clockIter_line0,
      clockIter_add 88660 341 (1, 0)]
  have h260 : (88660 : Nat) = 341 * 260 := by norm_num
  rw [h260, clockIter_scanlines 260 1 (by omega) (by omega)]
  show clockIter 341 (261, 0) = (0, 0)
  exact clockIter_341_reset

/-- The state 89,342 dots after reset: scanline 261, dot 1 — not `(0, 0)`. -/
theorem clockIter_89342 : clockIter 89342 (261, 0) = (261, 1) := by
  have hsplit : (89342 : Nat) = 341 + (340 + (88660 + 1)) := by norm_num
  rw [hsplit, clockIter_add 341 _ (261, 0), clockIter_341_reset,
      clockIter_add 340 _ (0, 0), clockIter_line0, clockIter_add 88660 1 (1, 0)]
  have h260 : (88660 : Nat) = 341 * 260 := by norm_num
  rw [h260, clockIter_scanlines 260 1 (by omega) (by omega)]
  show clockStep (261, 0) = (261, 1)
  exact clockStep_mid 261 0 (by omega) (by omega)

/-- No wrap while crossing scanline 261 below dot 340. -/
theorem frState_nowrap (k : Nat) : ∀ (t : Nat), t + k ≤ 340 →
    frState (261, t) false k = false := by
  induction k with
  | zero => intro t _; rfl
  | succ k ih =>
      intro t h
      show frState (clockStep (261, t)) (false || clockWrap (261, t)) k = false
      rw [clockWrap_false 261 t (by omega) (by omega),
          clockStep_mid 261 t (by omega) (by omega), Bool.or_false]
      exact ih (t + 1) (by omega)

/-- The flag goes up exactly on dot 341 after reset. -/
theorem frState_341 : frState (261, 0) false 341 = true := by
  have hsplit : (341 : Nat) = 340 + 1 := by norm_num
  rw [hsplit, frState_add 340 1 (261, 0) false]
  have hst : clockIter 340 (261, 0) = (261, 340) := by
    show clockIter 339 (clockStep (261, 0)) = _
    rw [clockStep_mid 261 0 (by omega) (by omega)]
    exact clockIter_advance 339 261 1 (by omega) (by omega)
  rw [hst, frState_nowrap 340 0 (by omega)]
  show (false || clockWrap (261, 340)) = frState (clockStep (261, 340)) (false || clockWrap (261, 340)) 0
  rfl

/-- Resolution of a `Relative` operand for the `branchSys` family: the
operand is read silently from PRG ROM, the target is `PC` plus the
sign-extended displacement, and the page cross compares `PC + 2` with that
(pre-`pc_skip`) target. -/
theorem resolve_rel (s1 : Sys) (pc disp : Nat) (h0 : s1.PC = pc)
    (hr : s1.prg_rom = (fun a => if a = pc - 0x8000 then 0xF0
                                 else if a = pc + 1 - 0x8000 then disp else 0))
    (h1 : 0x8000 ≤ pc) (h2 : pc + 2 ≤ 0xC000) :
    resolve_address s1 .Relative =
      some (u16 (pc + signext8 disp),
            decide (¬ u16 (pc + 2) &&& 0xFF00 = u16 (pc + signext8 disp) &&& 0xFF00), 2) := by
  have hpc1 : u16 (pc + 1) = pc + 1 := Nat.mod_eq_of_lt (by omega)
  have hop : memRead s1 (u16 (s1.PC + 1)) = some disp := by
    rw [h0, hpc1]
    unfold memRead
    rw [if_neg (show ¬pc + 1 ≤ 0x1FFF from by omega), if_neg (show ¬pc + 1 ≤ 0x3FFF from by omega),
        if_neg (show ¬pc + 1 ≤ 0x4017 from by omega), if_neg (show ¬pc + 1 ≤ 0x401F from by omega)]
    unfold cpuMapperRead
    rw [if_neg (show ¬(0x6000 ≤ pc + 1 ∧ pc + 1 ≤ 0x7FFF) from by omega),
        if_pos (show 0x8000 ≤ pc + 1 ∧ pc + 1 ≤ 0xBFFF from by omega), hr]
    dsimp only
    rw [if_neg (show ¬pc + 1 - 0x8000 = pc - 0x8000 from by omega), if_pos rfl]
  unfold resolve_address
  rw [hop]
  dsimp only [Option.bind, Option.map]
  rw [h0]

/-- Evaluation of a taken BEQ through `op_branch` for the `branchSys`
family: `pc_skip = 2`, one extra wait cycle plus one more exactly on the
resolver's page cross, and PC set to the pre-`pc_skip` target. -/
theorem op_branch_beq (s1 : Sys) (pc disp : Nat) (h0 : s1.PC = pc)
    (hz : containsFlag s1.status 0x02 = true)
    (hr : s1.prg_rom = (fun a => if a = pc - 0x8000 then 0xF0
                                 else if a = pc + 1 - 0x8000 then disp else 0))
    (h1 : 0x8000 ≤ pc) (h2 : pc + 2 ≤ 0xC000) :
    op_branch s1 0x02 true .Relative =
      some {s1 with pc_skip := 2,
                    wait_cycles :=
                      (if (decide (¬ u16 (pc + 2) &&& 0xFF00 = u16 (pc + signext8 disp) &&& 0xFF00)) = true
                       then s1.wait_cycles + 1 + 1 else s1.wait_cycles + 1),
                    PC := u16 (pc + signext8 disp)} := by
  unfold op_branch
  rw [resolve_rel s1 pc disp h0 hr h1 h2]
  dsimp only [Option.bind, Option.map]
  rw [hz]
  rw [if_pos rfl]
  split_ifs <;> rfl

/-- C3. BRK at `$8000` pushes the high then low byte of PC+1 (`$80`,
`$01`), then the status with B-low set (`$30`), and sets interrupt-disable
in the live register — but it loads PC from the `$FFFA/$FFFB` vector
(`$9ABC`), not from `$FFFE/$FFFF` (`$DEF0`) as the claim states. -/
theorem claim_C3_code_eval :
    (cpuTick brkSys).map (fun s =>
      (s.PC, s.SP, s.internal_ram 0x1FD, s.internal_ram 0x1FC, s.internal_ram 0x1FB, s.status)) =
      some (0x9ABC, 0xFA, 0x80, 0x01, 0x30, 0x34) ∧ (0x9ABC : Nat) ≠ 0xDEF0 := by
  exact ⟨by decide, by decide⟩

/-- C4 (counterexample). The S4 scenario of the claim — `F0 04` at
`$80FE` with Z set — ends the tick with PC = `$8104` but
`wait_cycles = 2`, not the 3 the claim demands: the code measures the page
cross between `PC + 2` (`$8100`) and `PC + disp` (`$8102`), which lie on
the same page. -/
theorem claim_C4_counterexample :
    (cpuTick (branchSys 0x80FE 0x04)).map (fun s => (s.PC, s.wait_cycles)) =
      some (0x8104, 2) ∧ (2 : Nat) ≠ 3 := by
  exact ⟨by decide, by decide⟩

/-- C4 (amended). For a taken BEQ, 1 extra cycle is charged, plus 1 more
exactly when `PC + disp` (the resolved target before the `pc_skip`
increment) lies on a different 256-byte page than `PC + 2`; the final PC
is `PC + disp + 2`.  In the concrete S4 scenario this yields
`wait_cycles = 2` (base 2 − 1 for the current tick + 1 taken + 0 cross). -/
theorem claim_C4_amended (pc disp : Nat) (h1 : 0x8000 ≤ pc) (h2 : pc + 2 ≤ 0xC000) :
    (cpuTick (branchSys pc disp)).map (fun r => (r.PC, r.wait_cycles)) =
      some (u16 (u16 (pc + signext8 disp) + 2),
            if u16 (pc + 2) &&& 0xFF00 = u16 (pc + signext8 disp) &&& 0xFF00 then 2 else 3) := by
  have hfetch : memReadMut (branchSys pc disp) pc = some (0xF0, branchSys pc disp) := by
    unfold memReadMut
    rw [if_neg (show ¬pc ≤ 0x1FFF from by omega), if_neg (show ¬pc ≤ 0x3FFF from by omega),
        if_neg (show ¬pc ≤ 0x4017 from by omega), if_neg (show ¬pc ≤ 0x401F from by omega)]
    unfold cpuMapperRead
    rw [if_neg (show ¬(0x6000 ≤ pc ∧ pc ≤ 0x7FFF) from by omega),
        if_pos (show 0x8000 ≤ pc ∧ pc ≤ 0xBFFF from by omega)]
    have hrom : (branchSys pc disp).prg_rom =
        (fun a => if a = pc - 0x8000 then 0xF0 else if a = pc + 1 - 0x8000 then disp else 0) := rfl
    rw [hrom]
    dsimp only
    rw [if_pos rfl]
  unfold cpuTick
  rw [show (branchSys pc disp).dma_halt = false from rfl]
  simp only [Bool.false_eq_true, if_false]
  rw [show (branchSys pc disp).do_nmi = false from rfl]
  simp only [Bool.false_eq_true, if_false]
  dsimp only [Option.bind]
  rw [show (branchSys pc disp).wait_cycles = 0 from rfl]
  rw [if_neg (show ¬(0 : Nat) > 0 from by omega)]
  rw [show (branchSys pc disp).PC = pc from rfl, hfetch]
  dsimp only [Option.bind]
  rw [show LUT_6502 0xF0 = some ⟨.BEQ, .Relative, 2⟩ from rfl]
  dsimp only [dispatch]
  rw [op_branch_beq _ pc disp (by exact rfl) (by dsimp only [branchSys, sysNew]; rfl)
      (by exact rfl) h1 h2]
  dsimp only [Option.map]
  by_cases hcross : u16 (pc + 2) &&& 0xFF00 = u16 (pc + signext8 disp) &&& 0xFF00
  · simp only [hcross, decide_not, decide_True, Bool.not_true, Bool.false_eq_true, if_false,
      if_true, if_pos]
    norm_num
    rfl
  · simp only [hcross, decide_not, decide_False, Bool.not_false, if_true, if_neg hcross]
    norm_num
    rfl

/-- C4 (witness). The amended branch rule applied to the S4 input. -/
theorem claim_C4_witness :
    (cpuTick (branchSys 0x80FE 0x04)).map (fun r => (r.PC, r.wait_cycles)) = some (0x8104, 2) := by
  have h := claim_C4_amended 0x80FE 0x04 (by norm_num) (by norm_num)
  rw [h]
  decide

/-- C5. An active `$2007` read with `v = $3F00` (palette range): the code
returns the nametable byte at the horizontal mirror of the register
address `$2007` itself (`$5C` at VRAM index 7) — not the palette byte
`$2A` at `v` — and leaves the read buffer unchanged (`$11`), only the
`v += 1` increment matching the claim. -/
theorem claim_C5_code_eval :
    (ppu_register_read paletteReadPpu 0x2007).map
      (fun dp => (dp.1, dp.2.data_bus_next, dp.2.vram_v)) = some (0x5C, 0x11, 0x3F01) ∧
    (0x5C : Nat) ≠ 0x2A := by
  exact ⟨by decide, by decide⟩

/-- C6. A PPU address-space write of `$2A` to `$3F10` lands in palette
cell `$10` and does not alias to `$00`: reading `$3F10` (which aliases to
`$3F00` on the read side) returns 0, not `$2A`, and
`palette[$10] ≠ palette[$00]` afterwards. -/
theorem claim_C6_code_eval :
    ((ppuWrite (ppuNew .Horizontal) 0x3F10 0x2A).palette 0x10 = 0x2A ∧
     (ppuWrite (ppuNew .Horizontal) 0x3F10 0x2A).palette 0x00 = 0 ∧
     ppuRead (ppuWrite (ppuNew .Horizontal) 0x3F10 0x2A) 0x3F10 = 0 ∧
     ppuRead (ppuWrite (ppuNew .Horizontal) 0x3F10 0x2A) 0x3F00 = 0) ∧
    (0 : Nat) ≠ 0x2A := by
  exact ⟨by decide, by decide⟩

/-- C7. PLP pulling the stack byte `$00` sets the live status register to
`$00` — B-high becomes 0 and the `(bits & $EF) | $20` mask of the claim
(which would give `$20`) is not applied; the claimed invariant that B-high
of the live status is always 1 fails in the reached state. -/
theorem claim_C7_code_eval :
    (cpuTick plpSys).map (fun s => s.status) = some 0x00 ∧
    (0x00 : Nat) ≠ (0x00 &&& 0xEF ||| 0x20) ∧ (0x00 : Nat) &&& 0x20 = 0 := by
  exact ⟨by decide, by decide, by decide⟩

/-- C10. Pattern-table memory behaves as writable RAM: a PPU address-space
write of byte `d` at `a < $2000` stores `d` in CHR storage, and a
subsequent PPU read of `a` returns `d`. -/
theorem claim_C10 (p : Ppu) (a d : Nat) (ha : a ≤ 0x1FFF) (hd : d < 256) :
    (ppuWrite p a d).chr_rom a = d ∧ ppuRead (ppuWrite p a d) a = d := by
  have hw : ppuWrite p a d = {p with chr_rom := upd p.chr_rom a d} := by
    unfold ppuWrite ppuMapperWrite
    rw [if_pos (show a ≤ 0x3EFF from by omega), if_pos ha]
    dsimp only
    rw [if_neg (show ¬(0 : Nat) &&& 0x1000 > 0 from by decide)]
  have hchr : (ppuWrite p a d).chr_rom a = d := by
    rw [hw]
    show upd p.chr_rom a d a = d
    unfold upd
    rw [if_pos rfl]
  refine ⟨hchr, ?_⟩
  unfold ppuRead ppuMapperRead
  rw [if_pos (show a ≤ 0x3EFF from by omega), if_pos ha, hchr]
  rw [if_neg (show ¬d &&& 0x1000 > 0 from ?_)]
  · have : d &&& 0xFF = d % 256 := by
      have := Nat.and_pow_two_sub_one_eq_mod d 8
      simpa using this
    rw [this, Nat.mod_eq_of_lt hd]
  · have ht : d.testBit 12 = false := Nat.testBit_lt_two_pow (by omega)
    have h2 : d &&& 4096 = 0 := by
      have := Nat.and_two_pow d 12
      rw [ht] at this
      norm_num at this
      exact this
    omega

/-- C10 (witness). The CHR round trip at address `$0123` with byte `$AB`
on a fresh PPU. -/
theorem claim_C10_witness :
    (ppuWrite (ppuNew .Horizontal) 0x0123 0xAB).chr_rom 0x0123 = 0xAB ∧
    ppuRead (ppuWrite (ppuNew .Horizontal) 0x0123 0xAB) 0x0123 = 0xAB :=
  claim_C10 (ppuNew .Horizontal) 0x0123 0xAB (by norm_num) (by norm_num)

set_option maxRecDepth 1000000

/-- C1. The PPU dot at scanline 241 dot 1 with the PPUCTRL NMI bit set
does raise VBLANK and `do_nmi`, and the next CPU tick performs the NMI
entry exactly as claimed (pushes `$80`, `$00`, status with B-low cleared
`$20`, sets I, loads PC from `$FFFA/$FFFB`, clears `do_nmi`) — but it
charges only 6 cycles (`wait_cycles = 6`, decremented to 5 on the entry
tick itself), so the next opcode fetch happens on the 7th tick counting
the entry tick, i.e. 6 CPU ticks after NMI entry, not 7: after 7 total
ticks the NOP at `$9000` has already executed. -/
theorem claim_C1_code_eval :
    ((ppuTickOne vblankPpu false).1.ppu_status &&& 0x80 = 0x80 ∧
     (ppuTickOne vblankPpu false).2 = true) ∧
    ((cpuTick nmiSys).map (fun s =>
        (s.PC, s.SP, s.internal_ram 0x1FD, s.internal_ram 0x1FC, s.internal_ram 0x1FB, s.status)) =
      some (0x9000, 0xFA, 0x80, 0x00, 0x20, 0x24) ∧
     (cpuTick nmiSys).map (fun s => s.do_nmi) = some false ∧
     (cpuTick nmiSys).map (fun s => s.wait_cycles) = some 5) ∧
    ((cpuTickN 6 nmiSys).map (fun s => s.last_legal_instruction) = some none ∧
     (cpuTickN 7 nmiSys).map (fun s => (s.PC, s.last_legal_instruction)) =
       some (0x9001, some 0x9000)) := by
  exact ⟨⟨by decide, by decide⟩, ⟨by decide, by decide, by decide⟩, by decide, by decide⟩

/-- C2. `STA $4014` with `A = $03` arms DMA (`dma_halt`,
`next_dma_addr = $0300`, 4-cycle store charge); each of the following 256
ticks is a pure copy tick (PC, `last_legal_instruction`, `wait_cycles`,
`do_nmi` untouched, source address +1); after the 256 copies `dma_halt` is
clear, `next_dma_addr = $0400`, and `poam` holds the RAM pattern starting
at OAMADDR = 5 with wrap; the subsequent instruction (at `$8003`) executes
only afterwards. -/
theorem claim_C2 :
    (cpuTick dmaSys).map (fun s =>
        (s.dma_halt == true) && (s.next_dma_addr == 0x300) && (s.PC == 0x8003) &&
        (s.wait_cycles == 3)) = some true ∧
    (cpuTick dmaSys).map (dmaRunCheck 256) = some true ∧
    (cpuTickN 257 dmaSys).map (fun s =>
        (s.dma_halt == false) && (s.next_dma_addr == 0x400) &&
        (s.last_legal_instruction == some 0x8000) &&
        (List.range 256).all (fun i => s.ppu.poam ((5 + i) % 256) == (i + 7) % 256)) = some true ∧
    (cpuTickN 261 dmaSys).map (fun s => s.last_legal_instruction) = some (some 0x8003) := by
  exact ⟨by decide, by decide, by decide, by decide⟩

/-- C8 (counterexample). Starting from reset (scanline 261, dot 0),
advancing the PPU by 89,342 dots leaves the clock at scanline 261, dot 1 —
not at scanline 0, dot 0 as the claim demands: the unconditional idle skip
at scanline 0 dot 0 makes every frame one dot shorter than 341 × 262. -/
theorem claim_C8_counterexample :
    (ppu_tick (ppuNew .Horizontal) false 89342).1.scanline = 261 ∧
    (ppu_tick (ppuNew .Horizontal) false 89342).1.tick = 1 ∧
    ¬((261 : Nat) = 0 ∧ (1 : Nat) = 0) := by
  refine ⟨?_, ?_, by omega⟩
  · rw [(ppu_tick_clock 89342 (ppuNew .Horizontal) false).1]
    have e : ((ppuNew .Horizontal).scanline, (ppuNew .Horizontal).tick) = (261, 0) := rfl
    rw [e, clockIter_89342]
  · rw [(ppu_tick_clock 89342 (ppuNew .Horizontal) false).2.1]
    have e : ((ppuNew .Horizontal).scanline, (ppuNew .Horizontal).tick) = (261, 0) := rfl
    rw [e, clockIter_89342]

/-- C8 (amended). From reset, `frame_ready` is still false after 340 dots
and first becomes true after 341 dots (the end of the pre-render
scanline), at which point the clock sits at scanline 0, dot 0; from there
every frame is exactly 89,341 dots: from any state at scanline 0 dot 0,
advancing 89,341 dots returns the clock to scanline 0 dot 0. -/
theorem claim_C8_amended :
    ((ppu_tick (ppuNew .Horizontal) false 340).1.frame_ready = false) ∧
    ((ppu_tick (ppuNew .Horizontal) false 341).1.scanline = 0 ∧
     (ppu_tick (ppuNew .Horizontal) false 341).1.tick = 0 ∧
     (ppu_tick (ppuNew .Horizontal) false 341).1.frame_ready = true) ∧
    (∀ (p : Ppu) (b : Bool), p.scanline = 0 → p.tick = 0 →
       (ppu_tick p b 89341).1.scanline = 0 ∧ (ppu_tick p b 89341).1.tick = 0) := by
  refine ⟨?_, ⟨?_, ?_, ?_⟩, ?_⟩
  · rw [(ppu_tick_clock 340 (ppuNew .Horizontal) false).2.2]
    show frState (261, 0) false 340 = false
    exact frState_nowrap 340 0 (by omega)
  · rw [(ppu_tick_clock 341 (ppuNew .Horizontal) false).1]
    have e : ((ppuNew .Horizontal).scanline, (ppuNew .Horizontal).tick) = (261, 0) := rfl
    rw [e, clockIter_341_reset]
  · rw [(ppu_tick_clock 341 (ppuNew .Horizontal) false).2.1]
    have e : ((ppuNew .Horizontal).scanline, (ppuNew .Horizontal).tick) = (261, 0) := rfl
    rw [e, clockIter_341_reset]
  · rw [(ppu_tick_clock 341 (ppuNew .Horizontal) false).2.2]
    show frState (261, 0) false 341 = true
    exact frState_341
  · intro p b h0 h1
    constructor
    · rw [(ppu_tick_clock 89341 p b).1, h0, h1, clockIter_period]
    · rw [(ppu_tick_clock 89341 p b).2.1, h0, h1, clockIter_period]

/-- C8 (witness). The 89,341-dot frame period applied at the concrete
frame-start state. -/
theorem claim_C8_witness :
    (ppu_tick frameStartPpu false 89341).1.scanline = 0 ∧
    (ppu_tick frameStartPpu false 89341).1.tick = 0 :=
  claim_C8_amended.2.2 frameStartPpu false rfl rfl

/-- C9 (counterexample). Latch the buttons with A pressed (`joy1In = 1`,
strobe high then low), then let the host release every button before the
first read: the read returns 0, not the latched A bit 1 — the `$4016`
reads track the live host byte, so the claimed shift-register latch does
not hold the button state. -/
theorem claim_C9_counterexample :
    ((memWrite {sysNew with joy1In := 1} 0x4016 1).bind (fun s1 =>
       (memWrite s1 0x4016 0).bind (fun s2 =>
         (memReadMut {s2 with joy1In := 0} 0x4016).map (fun ds => ds.1)))) = some 0 ∧
    (0 : Nat) ≠ 1 := by
  exact ⟨by decide, by decide⟩

/-- C9 (amended). A `$4016` write with bit 0 = 1 freezes the shifter and
stores the live button byte into `io_registers[$16]` (a latch no read ever
consults, subsequently overwritten by the written data); a write with
bit 0 = 0 unfreezes.  An active `$4016` read returns bit 0 of the CURRENT
live `joy1In` byte — shifting the live byte right by one when unfrozen,
leaving it untouched when frozen — so eight successive reads yield the
bits of the live byte LSB-first (A, B, Select, Start, Up, Down, Left,
Right) only as long as the host does not change it. -/
theorem claim_C9_amended :
    ∀ b, b < 256 →
      ((memWrite {sysNew with joy1In := b} 0x4016 1).map
         (fun t => (t.joy_freeze == true) && (t.io_registers 0x16 == 1))) = some true ∧
      ((memWrite {sysNew with joy1In := b} 0x4016 0).map
         (fun t => t.joy_freeze == false)) = some true ∧
      ((memReadMut {sysNew with joy1In := b, joy_freeze := true} 0x4016).map
         (fun ds => (ds.1 == b &&& 1) && (ds.2.joy1In == b))) = some true ∧
      ((memReadMut {sysNew with joy1In := b} 0x4016).map
         (fun ds => (ds.1 == b &&& 1) && (ds.2.joy1In == b >>> 1))) = some true ∧
      (joyReadN 8 {sysNew with joy1In := b}).map (fun ls => ls.1) =
        some [b &&& 1, (b >>> 1) &&& 1, (b >>> 2) &&& 1, (b >>> 3) &&& 1,
              (b >>> 4) &&& 1, (b >>> 5) &&& 1, (b >>> 6) &&& 1, (b >>> 7) &&& 1] := by
  decide

/-- C9 (witness). The amended read-out rule at the live byte `$B7`:
eight reads yield its bits LSB-first. -/
theorem claim_C9_witness :
    (joyReadN 8 {sysNew with joy1In := 0xB7}).map (fun ls => ls.1) =
      some [1, 1, 1, 0, 1, 1, 0, 1] := by
  have h := (claim_C9_amended 0xB7 (by decide)).2.2.2.2
  rw [h]
  decide

end FancyNes
